import Mathlib

/-!
# LyncZ relay — verification of the settlement pipeline specification

Shallow embedding of the LyncZ off-chain relay (Rust) in Lean 4, together
with proofs and refutations of the specification's claims.  Bytes are `Nat`
below 256, machine words are `Nat` with explicit reduction modulo `2^32` or
`2^64`, strings are lists of Unicode code points, and fallible Rust code is
embedded with `Option`/`Except`.
-/

namespace LyncZ

set_option maxRecDepth 8000

/-- Decidable equality for `Except`, used to evaluate fallible results on
concrete inputs. -/
instance exceptDecEq {ε α : Type} [DecidableEq ε] [DecidableEq α] :
    DecidableEq (Except ε α) := fun x y =>
  match x, y with
  | .ok a, .ok b =>
      if h : a = b then .isTrue (by rw [h])
      else .isFalse (fun hh => h (by cases hh; rfl))
  | .error a, .error b =>
      if h : a = b then .isTrue (by rw [h])
      else .isFalse (fun hh => h (by cases hh; rfl))
  | .ok _, .error _ => .isFalse (fun hh => Except.noConfusion hh)
  | .error _, .ok _ => .isFalse (fun hh => Except.noConfusion hh)

/-! ## SHA-256 (as computed by the `sha2` crate, `Sha256::digest`)

The relay's commitment scheme hashes byte strings with SHA-256.  The
embedding is executable so that concrete commitments can be evaluated by the
kernel. -/

/-- Truncate to a 32-bit word. -/
def w32 (x : Nat) : Nat := x % 4294967296

/-- Right rotation of a 32-bit word. -/
def rotr32 (n x : Nat) : Nat := (x >>> n) ||| (w32 (x <<< (32 - n)))

/-- SHA-256 `Ch` function. -/
def shaCh (x y z : Nat) : Nat := (x &&& y) ^^^ ((x ^^^ 4294967295) &&& z)

/-- SHA-256 `Maj` function. -/
def shaMaj (x y z : Nat) : Nat := (x &&& y) ^^^ (x &&& z) ^^^ (y &&& z)

/-- SHA-256 Σ₀. -/
def bigSigma0 (x : Nat) : Nat := rotr32 2 x ^^^ rotr32 13 x ^^^ rotr32 22 x

/-- SHA-256 Σ₁. -/
def bigSigma1 (x : Nat) : Nat := rotr32 6 x ^^^ rotr32 11 x ^^^ rotr32 25 x

/-- SHA-256 σ₀. -/
def smallSigma0 (x : Nat) : Nat := rotr32 7 x ^^^ rotr32 18 x ^^^ (x >>> 3)

/-- SHA-256 σ₁. -/
def smallSigma1 (x : Nat) : Nat := rotr32 17 x ^^^ rotr32 19 x ^^^ (x >>> 10)

/-- The 64 SHA-256 round constants (FIPS 180-4, in decimal). -/
def k256 : List Nat :=
  [1116352408, 1899447441, 3049323471, 3921009573, 961987163, 1508970993, 2453635748,
   2870763221, 3624381080, 310598401, 607225278, 1426881987, 1925078388, 2162078206,
   2614888103, 3248222580, 3835390401, 4022224774, 264347078, 604807628, 770255983,
   1249150122, 1555081692, 1996064986, 2554220882, 2821834349, 2952996808, 3210313671,
   3336571891, 3584528711, 113926993, 338241895, 666307205, 773529912, 1294757372,
   1396182291, 1695183700, 1986661051, 2177026350, 2456956037, 2730485921, 2820302411,
   3259730800, 3345764771, 3516065817, 3600352804, 4094571909, 275423344, 430227734,
   506948616, 659060556, 883997877, 958139571, 1322822218, 1537002063, 1747873779,
   1955562222, 2024104815, 2227730452, 2361852424, 2428436474, 2756734187, 3204031479,
   3329325298]

/-- Working state of the compression function. -/
structure ShaState where
  a : Nat
  b : Nat
  c : Nat
  d : Nat
  e : Nat
  f : Nat
  g : Nat
  h : Nat
deriving Repr, DecidableEq

/-- SHA-256 initial hash value (FIPS 180-4, in decimal). -/
def shaInit : ShaState :=
  ⟨1779033703, 3144134277, 1013904242, 2773480762,
   1359893119, 2600822924, 528734635, 1541459225⟩

/-- Extend the 16 block words: prepend `n` new schedule words to the reversed
word list. -/
def shaExtend : Nat → List Nat → List Nat
  | 0, rws => rws
  | n + 1, rws =>
      shaExtend n
        (w32 (smallSigma1 (rws.getD 1 0) + rws.getD 6 0 +
              smallSigma0 (rws.getD 14 0) + rws.getD 15 0) :: rws)

/-- The 64-entry message schedule of a block. -/
def shaSchedule (block : List Nat) : List Nat :=
  (shaExtend 48 block.reverse).reverse

/-- One compression round. -/
def shaRound (st : ShaState) (kw : Nat × Nat) : ShaState :=
  let t1 := w32 (st.h + bigSigma1 st.e + shaCh st.e st.f st.g + kw.1 + kw.2)
  let t2 := w32 (bigSigma0 st.a + shaMaj st.a st.b st.c)
  ⟨w32 (t1 + t2), st.a, st.b, st.c, w32 (st.d + t1), st.e, st.f, st.g⟩

/-- Compress one 16-word block into the chaining state. -/
def shaCompress (st : ShaState) (block : List Nat) : ShaState :=
  let fin := (k256.zip (shaSchedule block)).foldl shaRound st
  ⟨w32 (st.a + fin.a), w32 (st.b + fin.b), w32 (st.c + fin.c), w32 (st.d + fin.d),
   w32 (st.e + fin.e), w32 (st.f + fin.f), w32 (st.g + fin.g), w32 (st.h + fin.h)⟩

/-- A `Nat` as `n` big-endian bytes. -/
def beBytes (n : Nat) (x : Nat) : List Nat :=
  (List.range n).map (fun i => x >>> (8 * (n - 1 - i)) % 256)

/-- SHA-256 padding: append `0x80`, zeros, and the 64-bit big-endian bit
length, reaching a multiple of 64 bytes. -/
def shaPad (msg : List Nat) : List Nat :=
  msg ++ [0x80] ++ List.replicate ((64 - (msg.length + 9) % 64) % 64) 0 ++
    beBytes 8 (8 * msg.length)

/-- Split a padded message into 16-word (64-byte) blocks, words big-endian. -/
def shaBlocks (padded : List Nat) : List (List Nat) :=
  (List.range (padded.length / 64)).map (fun b =>
    (List.range 16).map (fun i =>
      let off := 64 * b + 4 * i
      (padded.getD off 0 <<< 24) + (padded.getD (off + 1) 0 <<< 16) +
      (padded.getD (off + 2) 0 <<< 8) + padded.getD (off + 3) 0))

/-- SHA-256 of a byte string, as 32 digest bytes. -/
def sha256 (msg : List Nat) : List Nat :=
  let fin := (shaBlocks (shaPad msg)).foldl shaCompress shaInit
  ([fin.a, fin.b, fin.c, fin.d, fin.e, fin.f, fin.g, fin.h].map (beBytes 4)).flatten

/-! ## Strings and bytes

Rust `&str` values are embedded as lists of Unicode code points.  Rust's byte
oriented operations (`str::len`, byte-index slicing) are recovered from the
UTF-8 byte lengths of the code points. -/

/-- Number of UTF-8 bytes of one code point. -/
def utf8Len (c : Nat) : Nat :=
  if c < 0x80 then 1 else if c < 0x800 then 2 else if c < 0x10000 then 3 else 4

/-- UTF-8 encoding of one code point. -/
def utf8EncodeChar (c : Nat) : List Nat :=
  if c < 0x80 then [c]
  else if c < 0x800 then [0xc0 + c / 64, 0x80 + c % 64]
  else if c < 0x10000 then [0xe0 + c / 4096, 0x80 + c / 64 % 64, 0x80 + c % 64]
  else [0xf0 + c / 262144, 0x80 + c / 4096 % 64, 0x80 + c / 64 % 64, 0x80 + c % 64]

/-- UTF-8 encoding of a string (Rust `str::as_bytes`). -/
def utf8Encode (s : List Nat) : List Nat := (s.map utf8EncodeChar).flatten

/-- Rust `str::len`: the UTF-8 byte length. -/
def strByteLen (s : List Nat) : Nat := (s.map utf8Len).sum

/-- Rust `&s[..n]` (byte index): `none` models the panic when `n` is not a
character boundary or exceeds the byte length. -/
def byteTake : List Nat → Nat → Option (List Nat)
  | _, 0 => some []
  | [], _ + 1 => none
  | c :: cs, n + 1 =>
      if utf8Len c ≤ n + 1 then (byteTake cs (n + 1 - utf8Len c)).map (c :: ·) else none

/-- Rust `&s[n..]` (byte index): `none` models the panic when `n` is not a
character boundary or exceeds the byte length. -/
def byteDrop : List Nat → Nat → Option (List Nat)
  | s, 0 => some s
  | [], _ + 1 => none
  | c :: cs, n + 1 => if utf8Len c ≤ n + 1 then byteDrop cs (n + 1 - utf8Len c) else none

/-- Rust `char::is_whitespace` (the Unicode White_Space property). -/
def isRustWhitespace (c : Nat) : Bool :=
  (9 ≤ c && c ≤ 13) || c == 32 || c == 0x85 || c == 0xa0 || c == 0x1680 ||
  (0x2000 ≤ c && c ≤ 0x200a) || c == 0x2028 || c == 0x2029 || c == 0x202f ||
  c == 0x205f || c == 0x3000

/-- Rust `str::trim`. -/
def rustTrim (s : List Nat) : List Nat :=
  ((s.dropWhile isRustWhitespace).reverse.dropWhile isRustWhitespace).reverse

/-- Rust `char::is_ascii_digit`. -/
def isAsciiDigit (c : Nat) : Bool := 48 ≤ c && c ≤ 57

/-- Whether every code point is ASCII (Rust `str::is_ascii`). -/
def isAsciiStr (s : List Nat) : Bool := s.all (· < 128)

/-- ASCII uppercasing of one code point.  `str::to_uppercase` agrees with this
on ASCII strings, the only strings the relay uppercases. -/
def asciiUpperChar (c : Nat) : Nat := if 97 ≤ c && c ≤ 122 then c - 32 else c

/-- Uppercase an ASCII string. -/
def toUppercaseAscii (s : List Nat) : List Nat := s.map asciiUpperChar

/-- A `u32` as 4 little-endian bytes (Rust `u32::to_le_bytes`). -/
def le32 (n : Nat) : List Nat := [n % 256, n / 256 % 256, n / 65536 % 256, n / 16777216 % 256]

/-- Decimal digits of a natural number, most significant first, as ASCII code
points (Rust `format!` of an unsigned integer). -/
def natDecAux : Nat → Nat → List Nat
  | 0, _ => []
  | _ + 1, 0 => []
  | fuel + 1, n + 1 => ((n + 1) % 10 + 48) :: natDecAux fuel ((n + 1) / 10)

/-- A natural number rendered in decimal, as code points. -/
def natToDecCP (n : Nat) : List Nat := if n = 0 then [48] else (natDecAux n n).reverse

/-- A natural number rendered with Rust's `{:02}` format specifier. -/
def zeroPad2 (n : Nat) : List Nat := if n < 10 then 48 :: natToDecCP n else natToDecCP n

/-- Value of one ASCII hex digit (`hex::decode` accepts both cases). -/
def hexDigitVal (c : Nat) : Option Nat :=
  if 48 ≤ c && c ≤ 57 then some (c - 48)
  else if 97 ≤ c && c ≤ 102 then some (c - 87)
  else if 65 ≤ c && c ≤ 70 then some (c - 55)
  else none

/-- `hex::decode`: `none` on an odd length or a non-hex character. -/
def hexDecode : List Nat → Option (List Nat)
  | [] => some []
  | [_] => none
  | c1 :: c2 :: rest =>
      match hexDigitVal c1, hexDigitVal c2, hexDecode rest with
      | some h, some l, some bs => some ((16 * h + l) :: bs)
      | _, _, _ => none

/-- Lowercase hex digit of a value below 16 (`hex::encode`). -/
def hexDigitChar (n : Nat) : Nat := if n < 10 then 48 + n else 87 + n

/-- `hex::encode`: lowercase hex of a byte string. -/
def hexEncode (bs : List Nat) : List Nat :=
  (bs.map (fun b => [hexDigitChar (b / 16), hexDigitChar (b % 16)])).flatten

/-- `s.strip_prefix("0x").unwrap_or(s)` ("0x" is the code points 48, 120). -/
def stripHex0x (s : List Nat) : List Nat := if s.take 2 = [48, 120] then s.drop 2 else s

/-- A byte string as a 0x-prefixed lowercase hex string, as the relay's
`format!` with `hex::encode` produces it. -/
def hexWith0x (bs : List Nat) : List Nat := 48 :: 120 :: hexEncode bs

/-! ## `crypto/hash.rs`: account masking and the commitment scheme -/

/-- The code points of the line-20 prefix (account-name label plus full-width
colon) as it appears in the provider's receipts. -/
def accountNameLabel : List Nat := [36134, 25143, 21517, 65306]

/-- The code points of the line-21 prefix (account-number label plus
full-width colon). -/
def accountNoLabel : List Nat := [36134, 21495, 65306]

/-- The code points of the line-29 amount prefix (lowercase-amount label plus
full-width colon). -/
def amountLabel : List Nat := [23567, 20889, 65306]

/-- `n` asterisks. -/
def stars (n : Nat) : List Nat := List.replicate n 42

/-- `mask_alipay_account_id` from `crypto/hash.rs`.  The input is trimmed,
then matched in order: email, 11-digit phone, dash-separated international
phone, fallback.  All cuts are Rust byte-index slices; `none` models a
slicing panic on a cut that is not a character boundary. -/
def mask_alipay_account_id (accountId : List Nat) : Option (List Nat) :=
  let trimmed := rustTrim accountId
  if trimmed.any (· == 64) then
    -- the byte index of the first '@' is a character boundary, so the two
    -- byte slices around it are exactly the character split
    let localPart := trimmed.takeWhile (· ≠ 64)
    let domain := trimmed.dropWhile (· ≠ 64)
    if strByteLen localPart ≤ 3 then
      some (localPart ++ stars 3 ++ domain)
    else
      (byteTake localPart 3).map (· ++ stars 3 ++ domain)
  else if strByteLen trimmed == 11 && trimmed.all isAsciiDigit then
    match byteTake trimmed 3, byteDrop trimmed 9 with
    | some p, some s => some (p ++ stars 6 ++ s)
    | _, _ => none
  else if 10 ≤ strByteLen trimmed && isAsciiDigit (trimmed.headD 0) && trimmed.any (· == 45) then
    if 7 ≤ strByteLen trimmed then
      match byteTake trimmed 5, byteDrop trimmed (strByteLen trimmed - 2) with
      | some p, some s => some (p ++ stars 5 ++ s)
      | _, _ => none
    else if strByteLen trimmed ≤ 3 then
      some (trimmed ++ stars 3)
    else
      (byteTake trimmed 3).map (· ++ stars 3)
  else if strByteLen trimmed ≤ 3 then
    some (trimmed ++ stars 3)
  else
    (byteTake trimmed 3).map (· ++ stars 3)

/-- `compute_account_lines_hash_from_lines`:
`SHA256(20_le ++ line20 ++ 21_le ++ line21)` over the UTF-8 line bytes. -/
def compute_account_lines_hash_from_lines (line20 line21 : List Nat) : List Nat :=
  sha256 (le32 20 ++ utf8Encode line20 ++ le32 21 ++ utf8Encode line21)

/-- `compute_account_lines_hash`: format the two receipt lines from the plain
account fields (uppercasing ASCII names, masking the account id) and hash
them.  `none` propagates a masking panic. -/
def compute_account_lines_hash (accountName accountId : List Nat) : Option (List Nat) :=
  let formattedName := if isAsciiStr accountName then toUppercaseAscii accountName else accountName
  let line20 := accountNameLabel ++ formattedName
  (mask_alipay_account_id accountId).map (fun m =>
    compute_account_lines_hash_from_lines line20 (accountNoLabel ++ m))

/-- `compute_tx_id_hash`: `SHA256(25_le ++ line25)`. -/
def compute_tx_id_hash (transactionId : List Nat) : List Nat :=
  sha256 (le32 25 ++ utf8Encode transactionId)

/-- `compute_time_amount_hash`: `SHA256(27_le ++ line27 ++ 29_le ++ line29)`. -/
def compute_time_amount_hash (paymentTime amountLine : List Nat) : List Nat :=
  sha256 (le32 27 ++ utf8Encode paymentTime ++ le32 29 ++ utf8Encode amountLine)

/-- `format_amount_line`: the line-29 text for a cent amount, label plus
`units.cc` with the cents zero-padded to two digits. -/
def format_amount_line (cnyCents : Nat) : List Nat :=
  amountLabel ++ natToDecCP (cnyCents / 100) ++ [46] ++ zeroPad2 (cnyCents % 100)

/-- `compute_expected_hash_with_onchain_account_hash`: decode the 0x-prefixed
on-chain account hash, check its length, and combine it with the transaction,
time and amount lines and the signer-key fingerprint into the final
commitment `SHA256(0x01 ++ pk ++ account ++ tx ++ time_amount)`. -/
def compute_expected_hash_with_onchain_account_hash
    (accountLinesHashHex line25 line27 line29 pkHashHex : List Nat) :
    Except String (List Nat) :=
  match hexDecode (stripHex0x accountLinesHashHex) with
  | none => .error "Invalid account_lines_hash"
  | some accountLinesHash =>
    if accountLinesHash.length ≠ 32 then
      .error "Invalid account_lines_hash length"
    else
      let txIdHash := compute_tx_id_hash line25
      let timeAmountHash := compute_time_amount_hash line27 line29
      match hexDecode pkHashHex with
      | none => .error "Invalid pk hash"
      | some pkHash =>
        .ok (sha256 (1 :: pkHash ++ accountLinesHash ++ txIdHash ++ timeAmountHash))

/-- Modelled from the spec's words: claim C7's masking rules, read literally —
character-based cuts applied to the account id as given (rules (a)–(d), in
order).  Kept separate from the source's `mask_alipay_account_id` so the two
can be compared. -/
def maskSpecRules (accountId : List Nat) : List Nat :=
  if accountId.any (· == 64) then
    (accountId.takeWhile (· ≠ 64)).take 3 ++ stars 3 ++ accountId.dropWhile (· ≠ 64)
  else if accountId.length == 11 && accountId.all isAsciiDigit then
    accountId.take 3 ++ stars 6 ++ accountId.drop 9
  else if 10 ≤ accountId.length && isAsciiDigit (accountId.headD 0) && accountId.any (· == 45) then
    accountId.take 5 ++ stars 5 ++ accountId.drop (accountId.length - 2)
  else
    accountId.take 3 ++ stars 3

/-! ## `parse_payment_time` from `api/handlers/settlement.rs`

`chrono::NaiveDateTime::parse_from_str(s, "%Y-%m-%d %H:%M:%S")` followed by
`dt.and_utc().timestamp() as u64 - 8 * 3600`.  The epoch is computed from the
proleptic Gregorian calendar; the `i64 → u64` cast and the subtraction use
the machine's wrap-around semantics, made explicit with `% 2^64`. -/

/-- Gregorian leap year. -/
def isLeapYear (y : Nat) : Bool := (y % 4 == 0 && y % 100 ≠ 0) || y % 400 == 0

/-- Days in a month of the Gregorian calendar. -/
def daysInMonth (y m : Nat) : Nat :=
  if m == 2 then (if isLeapYear y then 29 else 28)
  else if m == 4 || m == 6 || m == 9 || m == 11 then 30
  else 31

/-- Days from 1970-01-01 of a proleptic Gregorian date (the standard
era-based civil-calendar computation chrono uses). -/
def daysFromCivil (y m d : Int) : Int :=
  let y' := if m ≤ 2 then y - 1 else y
  let era := (if 0 ≤ y' then y' else y' - 399) / 400
  let yoe := y' - era * 400
  let mp := (m + 9) % 12
  let doy := (153 * mp + 2) / 5 + d - 1
  let doe := yoe * 365 + yoe / 4 - yoe / 100 + doy
  era * 146097 + doe - 719468

/-- The parsed components of a `YYYY-MM-DD HH:MM:SS` string. -/
structure DateTimeParts where
  year : Nat
  month : Nat
  day : Nat
  hour : Nat
  minute : Nat
  second : Nat
deriving Repr, DecidableEq

/-- A run of ASCII digits as a number; `none` on a non-digit. -/
def decNumOf (ds : List Nat) : Option Nat :=
  ds.foldl (fun acc c => acc.bind (fun a =>
    if isAsciiDigit c then some (10 * a + (c - 48)) else none)) (some 0)

/-- Parse a `YYYY-MM-DD HH:MM:SS` string into validated components
(`NaiveDateTime::parse_from_str` with format `%Y-%m-%d %H:%M:%S` on strings
of exactly this shape). -/
def parseDateTime (s : List Nat) : Option DateTimeParts :=
  if s.length == 19 && s.getD 4 0 == 45 && s.getD 7 0 == 45 && s.getD 10 0 == 32 &&
     s.getD 13 0 == 58 && s.getD 16 0 == 58 then
    match decNumOf (s.take 4), decNumOf ((s.drop 5).take 2), decNumOf ((s.drop 8).take 2),
          decNumOf ((s.drop 11).take 2), decNumOf ((s.drop 14).take 2),
          decNumOf ((s.drop 17).take 2) with
    | some y, some mo, some d, some h, some mi, some se =>
      if 1 ≤ mo && mo ≤ 12 && 1 ≤ d && d ≤ daysInMonth y mo && h ≤ 23 && mi ≤ 59 && se ≤ 59
      then some ⟨y, mo, d, h, mi, se⟩ else none
    | _, _, _, _, _, _ => none
  else none

/-- The UTC epoch seconds of parsed components (`NaiveDateTime::timestamp`,
an `i64`). -/
def epochOf (p : DateTimeParts) : Int :=
  daysFromCivil p.year p.month p.day * 86400 + p.hour * 3600 + p.minute * 60 + p.second

/-- The `i64 → u64` cast (`as u64`): wrap-around reinterpretation. -/
def intAsU64 (t : Int) : Nat := (Int.emod t (2 ^ 64)).toNat

/-- `parse_payment_time` from `settlement.rs`: parse the timestamp, cast the
epoch to `u64`, and subtract the 8-hour offset with `u64` wrap-around
semantics (the machine subtraction; it wraps — in debug builds panics — when
the epoch as `u64` is below `28800`). -/
def parse_payment_time (s : List Nat) : Except String Nat :=
  match parseDateTime s with
  | none => .error "Failed to parse payment time"
  | some p => .ok ((intAsU64 (epochOf p) + 2 ^ 64 - 28800) % 2 ^ 64)

/-! ## The relay database

The two entity tables, the withdrawals history and the sync-cursor table,
with the repository operations the event handlers and the settlement
handlers use (`db/orders.rs`, `db/trades.rs`, `db/withdrawals.rs`,
`blockchain/events.rs`).  Identifiers are the relay's hex strings, embedded
as Lean strings; amounts are the arbitrary-precision numerics of the store,
embedded as `Int`. -/

/-- An `orders` row. -/
structure DbOrder where
  seller : String
  token : String
  totalAmount : Int
  remainingAmount : Int
  exchangeRate : Int
  rail : Int
  accountId : String
  accountName : String
  createdAt : Int
  isPublic : Bool
  privateCode : Option String
deriving Repr, DecidableEq

/-- A `trades` row. -/
structure DbTrade where
  orderId : String
  buyer : String
  tokenAmount : Int
  cnyAmount : Int
  feeAmount : Option Int
  rail : Int
  transactionId : Option (List Nat)
  paymentTime : Option (List Nat)
  createdAt : Int
  expiresAt : Int
  status : Int
  escrowTxHash : Option String
  settlementTxHash : Option String
  pdfFile : Option (List Nat)
  pdfFilename : Option String
  axiomProofId : Option String
  settlementError : Option String
deriving Repr, DecidableEq

/-- A `withdrawals` row. -/
structure DbWithdrawal where
  orderId : String
  amount : Int
  remainingAfter : Int
  txHash : Option String
deriving Repr, DecidableEq

/-- The relay database state. -/
structure Db where
  orders : List (String × DbOrder)
  trades : List (String × DbTrade)
  withdrawals : List DbWithdrawal
  syncCursor : List (String × Nat)
deriving Repr, DecidableEq

/-- Look up a keyed row. -/
def alistGet {V : Type} (l : List (String × V)) (k : String) : Option V :=
  (l.find? (fun p => p.1 == k)).map (·.2)

/-- Update a keyed row in place. -/
def alistUpdate {V : Type} (l : List (String × V)) (k : String) (f : V → V) :
    List (String × V) :=
  l.map (fun p => if p.1 == k then (p.1, f p.2) else p)

/-- `orders::get`. -/
def ordersGet (db : Db) (orderId : String) : Except String DbOrder :=
  match alistGet db.orders orderId with
  | some o => .ok o
  | none => .error "OrderNotFound"

/-- `orders::create`: `INSERT ... ON CONFLICT DO UPDATE` — on conflict the
chain-authoritative columns are overwritten and the plain account fields are
preserved when already non-empty; `privateCode` is not in the column list and
is preserved. -/
def ordersCreate (db : Db) (orderId : String) (o : DbOrder) : Db :=
  match alistGet db.orders orderId with
  | none => { db with orders := db.orders ++ [(orderId, o)] }
  | some old =>
      { db with orders := alistUpdate db.orders orderId (fun _ =>
          { o with
            accountId := if old.accountId ≠ "" then old.accountId else o.accountId,
            accountName := if old.accountName ≠ "" then old.accountName else o.accountName,
            privateCode := old.privateCode }) }

/-- `orders::adjust_remaining_amount`: `remainingAmount += delta`, error when
the row does not exist. -/
def ordersAdjustRemaining (db : Db) (orderId : String) (delta : Int) : Except String Db :=
  match alistGet db.orders orderId with
  | none => .error "OrderNotFound"
  | some _ =>
      .ok { db with orders := alistUpdate db.orders orderId (fun o =>
              { o with remainingAmount := o.remainingAmount + delta }) }

/-- `orders::update_exchange_rate`. -/
def ordersUpdateExchangeRate (db : Db) (orderId : String) (newRate : Int) : Except String Db :=
  match alistGet db.orders orderId with
  | none => .error "OrderNotFound"
  | some _ =>
      .ok { db with orders := alistUpdate db.orders orderId (fun o =>
              { o with exchangeRate := newRate }) }

/-- `trades::create`: `INSERT ... ON CONFLICT DO NOTHING`. -/
def tradesCreate (db : Db) (tradeId : String) (t : DbTrade) : Db :=
  match alistGet db.trades tradeId with
  | some _ => db
  | none => { db with trades := db.trades ++ [(tradeId, t)] }

/-- `trades::get`. -/
def tradesGet (db : Db) (tradeId : String) : Except String DbTrade :=
  match alistGet db.trades tradeId with
  | some t => .ok t
  | none => .error "TradeNotFound"

/-- `trades::update_status`: unconditional `UPDATE`, error when the row does
not exist. -/
def tradesUpdateStatus (db : Db) (tradeId : String) (newStatus : Int) : Except String Db :=
  match alistGet db.trades tradeId with
  | none => .error "TradeNotFound"
  | some _ =>
      .ok { db with trades := alistUpdate db.trades tradeId (fun t =>
              { t with status := newStatus }) }

/-- `trades::update_settlement_tx`. -/
def tradesUpdateSettlementTx (db : Db) (tradeId : String) (h : String) : Except String Db :=
  match alistGet db.trades tradeId with
  | none => .error "TradeNotFound"
  | some _ =>
      .ok { db with trades := alistUpdate db.trades tradeId (fun t =>
              { t with settlementTxHash := some h }) }

/-- `trades::save_pdf`. -/
def tradesSavePdf (db : Db) (tradeId : String) (pdf : List Nat) (filename : String) :
    Except String Db :=
  match alistGet db.trades tradeId with
  | none => .error "TradeNotFound"
  | some _ =>
      .ok { db with trades := alistUpdate db.trades tradeId (fun t =>
              { t with pdfFile := some pdf, pdfFilename := some filename }) }

/-- `trades::clear_pdf`: null the receipt bytes, filename, transaction id and
payment time. -/
def tradesClearPdf (db : Db) (tradeId : String) : Except String Db :=
  match alistGet db.trades tradeId with
  | none => .error "TradeNotFound"
  | some _ =>
      .ok { db with trades := alistUpdate db.trades tradeId (fun t =>
              { t with pdfFile := none, pdfFilename := none,
                       transactionId := none, paymentTime := none }) }

/-- `trades::update_payment_info`. -/
def tradesUpdatePaymentInfo (db : Db) (tradeId : String) (txid ptime : List Nat) :
    Except String Db :=
  match alistGet db.trades tradeId with
  | none => .error "TradeNotFound"
  | some _ =>
      .ok { db with trades := alistUpdate db.trades tradeId (fun t =>
              { t with transactionId := some txid, paymentTime := some ptime }) }

/-- `trades::save_proof`: persist the proof artifact fields; only the proof
id is observable in this model. -/
def tradesSaveProof (db : Db) (tradeId : String) (proofId : String) : Except String Db :=
  match alistGet db.trades tradeId with
  | none => .error "TradeNotFound"
  | some _ =>
      .ok { db with trades := alistUpdate db.trades tradeId (fun t =>
              { t with axiomProofId := some proofId }) }

/-- `trades::save_settlement_error`. -/
def tradesSaveSettlementError (db : Db) (tradeId : String) (code : String) : Except String Db :=
  match alistGet db.trades tradeId with
  | none => .error "TradeNotFound"
  | some _ =>
      .ok { db with trades := alistUpdate db.trades tradeId (fun t =>
              { t with settlementError := some code }) }

/-- `trades::is_transaction_id_used`: some trade with this transaction id has
status settled (`status = 1`). -/
def isTransactionIdUsed (db : Db) (txid : List Nat) : Bool :=
  db.trades.any (fun p => p.2.transactionId == some txid && p.2.status == 1)

/-- `withdrawals::create`: plain insert. -/
def withdrawalsCreate (db : Db) (w : DbWithdrawal) : Db :=
  { db with withdrawals := db.withdrawals ++ [w] }

/-- `save_last_synced_block`: `INSERT ... ON CONFLICT DO UPDATE`. -/
def saveLastSyncedBlock (db : Db) (contract : String) (block : Nat) : Db :=
  match alistGet db.syncCursor contract with
  | none => { db with syncCursor := db.syncCursor ++ [(contract, block)] }
  | some _ => { db with syncCursor := alistUpdate db.syncCursor contract (fun _ => block) }

/-! ## The chain-event reconciler (`blockchain/events.rs`)

Decoded contract events, routed by topic; each handler is embedded as a
function returning the database after its effects together with the error it
would report, since `sync_events` logs handler errors and continues with the
state the handler left behind.  E-mail notifications do not touch the
database and are omitted. -/

/-- A decoded contract log. -/
inductive ChainEvent where
  | orderCreated (orderId seller token : String) (totalAmount exchangeRate : Int)
      (rail : Int) (accountLinesHash : String) (isPublic : Bool)
  | orderWithdrawn (orderId : String) (withdrawnAmount remainingAmount : Int)
      (txHash : Option String)
  | tradeCreated (tradeId orderId buyer token : String)
      (tokenAmount feeAmount fiatAmount : Int) (expiresAt : Int) (txHash : Option String)
  | tradeSettled (tradeId : String) (txIdHash : String) (txHash : Option String)
  | tradeExpired (tradeId orderId : String) (totalReturned : Int)
  | exchangeRateUpdated (orderId : String) (oldRate newRate : Int)
  | accountLinesHashUpdated (orderId : String) (oldHash newHash : String)
  | unknownTopic
deriving Repr, DecidableEq

/-- `handle_order_created`: upsert the order with empty plain fields; the
post-insert commitment check only logs and gates a notification. -/
def handle_order_created (db : Db) (now : Int) (orderId seller token : String)
    (totalAmount exchangeRate : Int) (rail : Int) (isPublic : Bool) : Db × Option String :=
  let o : DbOrder :=
    { seller := seller, token := token, totalAmount := totalAmount,
      remainingAmount := totalAmount, exchangeRate := exchangeRate, rail := rail,
      accountId := "", accountName := "", createdAt := now, isPublic := isPublic,
      privateCode := none }
  (ordersCreate db orderId o, none)

/-- `handle_order_withdrawn`: decrement the remaining amount, then record a
withdrawal row (whose own failure would not fail the handler). -/
def handle_order_withdrawn (db : Db) (orderId : String)
    (withdrawnAmount remainingAmount : Int) (txHash : Option String) : Db × Option String :=
  match ordersAdjustRemaining db orderId (-withdrawnAmount) with
  | .error e => (db, some e)
  | .ok db1 =>
      (withdrawalsCreate db1
        { orderId := orderId, amount := withdrawnAmount,
          remainingAfter := remainingAmount, txHash := txHash }, none)

/-- `handle_trade_created`: insert the trade (`ON CONFLICT DO NOTHING`), then
unconditionally decrement the parent order's remaining amount by
`tokenAmount + feeAmount`. -/
def handle_trade_created (db : Db) (now : Int) (tradeId orderId buyer _token : String)
    (tokenAmount feeAmount fiatAmount : Int) (expiresAt : Int) (txHash : Option String) :
    Db × Option String :=
  let rail := match ordersGet db orderId with | .ok o => o.rail | .error _ => 0
  let t : DbTrade :=
    { orderId := orderId, buyer := buyer, tokenAmount := tokenAmount,
      cnyAmount := fiatAmount, feeAmount := some feeAmount, rail := rail,
      transactionId := none, paymentTime := none, createdAt := now,
      expiresAt := expiresAt, status := 0, escrowTxHash := some (txHash.getD ""),
      settlementTxHash := none, pdfFile := none, pdfFilename := none,
      axiomProofId := none, settlementError := none }
  let db1 := tradesCreate db tradeId t
  match ordersAdjustRemaining db1 orderId (-(tokenAmount + feeAmount)) with
  | .error e => (db1, some e)
  | .ok db2 => (db2, none)

/-- `handle_trade_settled`: set status to settled; the settlement-tx update's
failure is only a warning. -/
def handle_trade_settled (db : Db) (tradeId : String) (txHash : Option String) :
    Db × Option String :=
  match tradesUpdateStatus db tradeId 1 with
  | .error e => (db, some e)
  | .ok db1 =>
      let h := txHash.getD ""
      if h ≠ "" then
        match tradesUpdateSettlementTx db1 tradeId h with
        | .ok db2 => (db2, none)
        | .error _ => (db1, none)
      else (db1, none)

/-- `handle_trade_expired`: set status to expired, then add the returned
amount back to the parent order. -/
def handle_trade_expired (db : Db) (tradeId orderId : String) (totalReturned : Int) :
    Db × Option String :=
  match tradesUpdateStatus db tradeId 2 with
  | .error e => (db, some e)
  | .ok db1 =>
      match ordersAdjustRemaining db1 orderId totalReturned with
      | .error e => (db1, some e)
      | .ok db2 => (db2, none)

/-- `handle_exchange_rate_updated`. -/
def handle_exchange_rate_updated (db : Db) (orderId : String) (newRate : Int) :
    Db × Option String :=
  match ordersUpdateExchangeRate db orderId newRate with
  | .error e => (db, some e)
  | .ok db1 => (db1, none)

/-- Route one decoded log to its handler (`sync_events`' topic dispatch).
`AccountLinesHashUpdated` and unknown topics only log. -/
def handleLog (db : Db) (now : Int) : ChainEvent → Db × Option String
  | .orderCreated oid seller token total rate rail _hash isPublic =>
      handle_order_created db now oid seller token total rate rail isPublic
  | .orderWithdrawn oid w r tx => handle_order_withdrawn db oid w r tx
  | .tradeCreated tid oid buyer token tok fee fiat exp tx =>
      handle_trade_created db now tid oid buyer token tok fee fiat exp tx
  | .tradeSettled tid _txIdHash tx => handle_trade_settled db tid tx
  | .tradeExpired tid oid ret => handle_trade_expired db tid oid ret
  | .exchangeRateUpdated oid _old new => handle_exchange_rate_updated db oid new
  | .accountLinesHashUpdated _ _ _ => (db, none)
  | .unknownTopic => (db, none)

/-- The reconciler's in-memory position plus the database. -/
structure SyncState where
  startBlock : Nat
  db : Db
deriving Repr, DecidableEq

/-- `sync_events`: compute the reorg-safe head, fetch one batch of logs (the
fetch outcome is an input; a provider error aborts with nothing changed),
route every log to its handler — handler errors are logged and the loop
continues with the handler's partial effects — and then unconditionally
advance the cursor to `to_block + 1`, both in memory and durably. -/
def sync_events (st : SyncState) (contract : String) (now : Int) (currentBlock : Nat)
    (logsResult : Except String (List ChainEvent)) : Except String SyncState :=
  let safeBlock := currentBlock - 2
  if safeBlock ≤ st.startBlock then .ok st
  else
    match logsResult with
    | .error e => .error e
    | .ok logs =>
        let toBlock := min (st.startBlock + 200) safeBlock
        let db1 := logs.foldl (fun db ev => (handleLog db now ev).1) st.db
        let newStart := toBlock + 1
        .ok { startBlock := newStart, db := saveLastSyncedBlock db1 contract newStart }

/-! ## The settlement coordinator (`api/handlers/settlement.rs`)

`validate_handler` and `settle_handler`, embedded from the point where the
receipt bytes have been read and its fields extracted (multipart reading and
PDF text extraction are the upstream byte-level collaborators; their outcome
is an input).  External calls — the chain reads, the prover, the key
rotation — are oracles whose responses are inputs, and the side effects the
handler triggers are recorded in an action trace. -/

/-- Fields extracted from the receipt (`extract_pdf_fields`). -/
structure ExtractedFields where
  transactionId : List Nat
  paymentTime : List Nat
  publicKeyDerHash : List Nat
deriving Repr, DecidableEq

/-- The relay's HTTP error taxonomy (`ApiError`). -/
inductive ApiError where
  | badRequest (msg : String)
  | database (msg : String)
  | internal (msg : String)
  | serviceUnavailable (msg : String)
  | blockchainError (msg : String)
deriving Repr, DecidableEq

/-- `ValidateResponse` (the free-text message is omitted). -/
structure ValidateResponse where
  valid : Bool
  expectedHash : List Nat
  actualHash : List Nat
  validationCode : String
  transactionId : List Nat
  paymentTime : List Nat
deriving Repr, DecidableEq

/-- The externally visible side effects of a validate/settle run. -/
inductive Action where
  | savePdf
  | clearPdf
  | cacheInsert
  | cacheRemove
  | updatePaymentInfo
  | fetchOnchainHash
  | callProverExecute
  | callProverProve
  | fetchContractPk
  | updateKeyOnChain
  | spawnSettlement
  | submitProofOnChain
deriving Repr, DecidableEq

/-- Responses of the external collaborators consulted during validate. -/
structure ValidateEnv where
  onchainAccountHash : Except String (List Nat)
  proverExecuteOutput : Except String (List Nat)
  contractPkHash : Except String (List Nat)
deriving Repr, DecidableEq

/-- The outcome of a validate run: the HTTP result, the database it left
behind, and the side effects it performed. -/
structure ValidateOutcome where
  result : Except ApiError ValidateResponse
  db : Db
  actions : List Action
deriving Repr, DecidableEq

/-- `validate_handler`, from the point where the receipt bytes are in hand:
persist the receipt, run the replay and temporal pre-checks (clearing the
receipt and short-circuiting on failure), compute the expected hash from the
on-chain account commitment and the server-side amount, run the prover's
execute mode, and on a hash match spawn the background settlement (after the
optimistic key-rotation comparison); on a mismatch clear the receipt and the
cached streams. -/
def validate_handler (db0 : Db) (tradeId : String) (pdfData : List Nat) (filename : String)
    (ext : Except String ExtractedFields) (env : ValidateEnv) : ValidateOutcome :=
  match ext with
  | .error e => ⟨.error (.badRequest ("PDF parsing failed: " ++ e)), db0, []⟩
  | .ok f =>
    match tradesSavePdf db0 tradeId pdfData filename with
    | .error e => ⟨.error (.database e), db0, []⟩
    | .ok db1 =>
      match tradesGet db1 tradeId with
      | .error e => ⟨.error (.database e), db1, [.savePdf]⟩
      | .ok trade =>
        if isTransactionIdUsed db1 f.transactionId then
          -- replay pre-check hit: clear the receipt (a clear failure is only
          -- logged) and return without touching the prover
          let db2 := match tradesClearPdf db1 tradeId with | .ok d => d | .error _ => db1
          ⟨.ok { valid := false, expectedHash := [], actualHash := [],
                 validationCode := "REPLAY_ATTACK", transactionId := f.transactionId,
                 paymentTime := f.paymentTime }, db2, [.savePdf, .clearPdf]⟩
        else
          match parse_payment_time f.paymentTime with
          | .error e => ⟨.error (.badRequest ("Invalid payment time format: " ++ e)), db1,
                         [.savePdf]⟩
          | .ok paymentTimestamp =>
            if paymentTimestamp < intAsU64 trade.createdAt then
              let db2 := match tradesClearPdf db1 tradeId with | .ok d => d | .error _ => db1
              ⟨.ok { valid := false, expectedHash := [], actualHash := [],
                     validationCode := "PAYMENT_TOO_OLD", transactionId := f.transactionId,
                     paymentTime := f.paymentTime }, db2, [.savePdf, .clearPdf]⟩
            else
              -- the stored numeric cny amount is an integer number of cents;
              -- its string/f64 round trip in the source is exact there
              let tradeAmountCents := trade.cnyAmount.toNat
              let line29 := format_amount_line tradeAmountCents
              match env.onchainAccountHash with
              | .error e =>
                  ⟨.error (.internal ("Failed to fetch order hash from blockchain: " ++ e)),
                   db1, [.savePdf, .fetchOnchainHash]⟩
              | .ok onchainHash =>
                match compute_expected_hash_with_onchain_account_hash
                    (hexWith0x onchainHash) f.transactionId f.paymentTime line29
                    (hexEncode f.publicKeyDerHash) with
                | .error e => ⟨.error (.internal ("Hash computation failed: " ++ e)), db1,
                               [.savePdf, .fetchOnchainHash]⟩
                | .ok expectedHash =>
                  match tradesUpdatePaymentInfo db1 tradeId f.transactionId f.paymentTime with
                  | .error e => ⟨.error (.database e), db1,
                                 [.savePdf, .fetchOnchainHash, .cacheInsert]⟩
                  | .ok db2 =>
                    match env.proverExecuteOutput with
                    | .error e =>
                        ⟨.error (.internal ("Axiom execution failed: " ++ e)), db2,
                         [.savePdf, .fetchOnchainHash, .cacheInsert, .updatePaymentInfo,
                          .callProverExecute]⟩
                    | .ok actualHash =>
                      if expectedHash = actualHash then
                        match env.contractPkHash with
                        | .error e =>
                            ⟨.error (.internal ("Failed to get contract pk hash: " ++ e)), db2,
                             [.savePdf, .fetchOnchainHash, .cacheInsert, .updatePaymentInfo,
                              .callProverExecute, .fetchContractPk]⟩
                        | .ok contractPk =>
                          let rotation := if f.publicKeyDerHash ≠ contractPk
                            then [Action.updateKeyOnChain] else []
                          ⟨.ok { valid := true, expectedHash := hexEncode expectedHash,
                                 actualHash := hexEncode actualHash,
                                 validationCode := "SUCCESS",
                                 transactionId := f.transactionId,
                                 paymentTime := f.paymentTime }, db2,
                           [.savePdf, .fetchOnchainHash, .cacheInsert, .updatePaymentInfo,
                            .callProverExecute, .fetchContractPk] ++ rotation ++
                           [.spawnSettlement]⟩
                      else
                        let db3 := match tradesClearPdf db2 tradeId with
                          | .ok d => d | .error _ => db2
                        ⟨.ok { valid := false, expectedHash := hexEncode expectedHash,
                               actualHash := hexEncode actualHash,
                               validationCode := "HASH_MISMATCH",
                               transactionId := f.transactionId,
                               paymentTime := f.paymentTime }, db3,
                         [.savePdf, .fetchOnchainHash, .cacheInsert, .updatePaymentInfo,
                          .callProverExecute, .clearPdf, .cacheRemove]⟩

/-- `SettleResponse`. -/
structure SettleResponse where
  success : Bool
  txHash : String
deriving Repr, DecidableEq

/-- Responses of the collaborators consulted during settle. -/
structure SettleEnv where
  cacheHasStreams : Bool
  proverProveOutput : Except String String
  submitResult : Except String String
deriving Repr, DecidableEq

/-- The outcome of a settle run. -/
structure SettleOutcome where
  result : Except ApiError SettleResponse
  db : Db
  actions : List Action
deriving Repr, DecidableEq

/-- `settle_handler`: an already-settled trade returns success with the
stored settlement transaction immediately; a pending trade that already has a
proof id is rejected; otherwise the receipt, payment info and cached streams
are required, the prover generates a full proof, and the proof is submitted
on chain. -/
def settle_handler (hasBlockchainClient : Bool) (db0 : Db) (tradeId : String)
    (env : SettleEnv) : SettleOutcome :=
  if ¬ hasBlockchainClient then
    ⟨.error (.serviceUnavailable "Blockchain not enabled"), db0, []⟩
  else
  match tradesGet db0 tradeId with
  | .error e => ⟨.error (.database e), db0, []⟩
  | .ok trade =>
    if trade.status == 1 then
      ⟨.ok { success := true, txHash := trade.settlementTxHash.getD "" }, db0, []⟩
    else if trade.axiomProofId.isSome && trade.status == 0 then
      ⟨.error (.badRequest "Proof generation already in progress. Please wait."), db0, []⟩
    else if trade.pdfFile.isNone then
      ⟨.error (.badRequest "No PDF uploaded. Call /validate first."), db0, []⟩
    else
      match trade.transactionId, trade.paymentTime with
      | none, _ => ⟨.error (.badRequest "No transaction_id. Call /validate first."), db0, []⟩
      | some _, none =>
          ⟨.error (.badRequest "No payment_time. Call /validate first."), db0, []⟩
      | some _, some _ =>
        if ¬ env.cacheHasStreams then
          ⟨.error (.badRequest "PDF not validated. Call /validate first."), db0, []⟩
        else
          match env.proverProveOutput with
          | .error e => ⟨.error (.internal ("Proof generation failed: " ++ e)), db0,
                         [.callProverProve]⟩
          | .ok proofId =>
            match tradesSaveProof db0 tradeId proofId with
            | .error e => ⟨.error (.database e), db0, [.callProverProve]⟩
            | .ok db1 =>
            match env.submitResult with
            | .error e => ⟨.error (.blockchainError e), db1,
                           [.callProverProve, .submitProofOnChain]⟩
            | .ok tx => ⟨.ok { success := true, txHash := tx }, db1,
                         [.callProverProve, .submitProofOnChain, .cacheRemove]⟩

/-! ## `create_trade_handler` (`api/handlers/trades.rs`) -/

/-- `U256::from_dec_str`: a non-empty decimal digit string below `2^256`. -/
def parseDecU256 (s : List Nat) : Option Nat :=
  match s with
  | [] => none
  | _ => (decNumOf s).bind (fun n => if n < 2 ^ 256 then some n else none)

/-- `create_trade_handler` up to the on-chain `fillOrder` submission: decode
the order id, parse the buyer and the fiat amount, and enforce the
whole-yuan divisibility check; `.ok n` means the handler proceeds to submit
`fillOrder` with fiat amount `n`. -/
def create_trade_handler (orderIdStr : List Nat) (buyerParseOk : Bool)
    (fiatAmountStr : List Nat) : Except ApiError Nat :=
  match hexDecode (stripHex0x orderIdStr) with
  | none => .error (.badRequest "Invalid order_id hex")
  | some bytes =>
    if bytes.length ≠ 32 then .error (.badRequest "order_id must be 32 bytes")
    else if ¬ buyerParseOk then .error (.badRequest "Invalid buyer_address")
    else
      match parseDecU256 fiatAmountStr with
      | none => .error (.badRequest "Invalid fiat_amount (must be decimal)")
      | some fiat =>
        if fiat % 100 ≠ 0 then
          .error (.badRequest "fiat_amount must be whole yuan (divisible by 100)")
        else .ok fiat

/-! ## The receipt signature verifier
(`verifiers/alipay/pdf-utils/signature-validator`)

The PKCS#7 `SignedData` walk of `pkcs7_parser.rs` and the top-level
`verify_pdf_signature` of `lib.rs`, over the parsed ASN.1 tree.  The external
collaborators are parameters: `fromDer` stands for `simple_asn1::from_der`
(the byte-level DER reader), and `rsaVerify` for the `rsa` crate's key
construction plus PKCS#1 v1.5 verification (`.error` a key-construction
failure, `.ok b` the verification outcome).  Nonnegative ASN.1 integers
(serials, moduli, exponents — the only ones certificates carry) are embedded
as `Nat`; for them the source's unsigned reinterpretation
`BigUint::from_bytes_be(to_signed_bytes_be())` is the identity.  A Rust index
panic is embedded as an error whose text starts with "panic". -/

/-- `simple_asn1::ASN1Class`. -/
inductive ASN1Class where
  | universalClass
  | application
  | contextSpecific
  | privateClass
deriving Repr, DecidableEq

/-- `simple_asn1::ASN1Block`, with the offsets dropped (no handler reads
them). -/
inductive ASN1Block where
  | boolean (b : Bool)
  | integer (n : Nat)
  | bitString (bits : Nat) (bytes : List Nat)
  | octetString (bytes : List Nat)
  | nullBlock
  | objectIdentifier (oid : List Nat)
  | sequence (items : List ASN1Block)
  | set (items : List ASN1Block)
  | explicit (cls : ASN1Class) (tag : Nat) (inner : ASN1Block)
  | unknown (cls : ASN1Class) (constructed : Bool) (tag : Nat) (content : List Nat)
deriving Repr

/-- The outcome of `parse_signed_data`. -/
structure VerifierParams where
  modulus : Nat
  exponent : Nat
  signature : List Nat
  signedAttrDigest : List Nat
  signedDataMessageDigest : List Nat
deriving Repr, DecidableEq

/-- The PKCS#7 `signedData` content type, `1.2.840.113549.1.7.2`. -/
def pkcs7SignedDataOid : List Nat := [1, 2, 840, 113549, 1, 7, 2]

/-- The SHA-256 digest OID, `2.16.840.1.101.3.4.2.1`. -/
def sha256Oid : List Nat := [2, 16, 840, 1, 101, 3, 4, 2, 1]

/-- The `messageDigest` attribute OID, `1.2.840.113549.1.9.4`. -/
def messageDigestOid : List Nat := [1, 2, 840, 113549, 1, 9, 4]

/-- The `rsaEncryption` OID, `1.2.840.113549.1.1.1`. -/
def rsaEncryptionOid : List Nat := [1, 2, 840, 113549, 1, 1, 1]

/-- The type of the abstracted `simple_asn1::from_der`. -/
def FromDer : Type := List Nat → Except String (List ASN1Block)

/-- `extract_content_info`: the top level must be a SEQUENCE whose first
child is the `signedData` content-type OID. -/
def extract_content_info (blocks : List ASN1Block) : Except String (List ASN1Block) :=
  match blocks.head? with
  | some (.sequence children) =>
      match children.head? with
      | none => .error "panic: index out of bounds"
      | some (.objectIdentifier o) =>
          if o = pkcs7SignedDataOid then .ok children
          else .error "Not a SignedData contentType"
      | some _ => .error "Not a SignedData contentType"
  | _ => .error "Top-level not a SEQUENCE"

/-- `extract_signed_children`: unwrap the `[0] EXPLICIT` SignedData
SEQUENCE, re-parsing the bytes of an unparsed context tag. -/
def extract_signed_children (fromDer : FromDer) (children : List ASN1Block) :
    Except String (List ASN1Block) :=
  match children.get? 1 with
  | none => .error "Missing SignedData content"
  | some block =>
    match block with
    | .explicit .contextSpecific _ inner =>
        match inner with
        | .sequence seq => .ok seq
        | _ => .error "Explicit SignedData not a SEQUENCE"
    | .unknown .contextSpecific _ _ data =>
        match fromDer data with
        | .error e => .error ("Parse error: " ++ e)
        | .ok parsed =>
          match parsed.head? with
          | some (.sequence seq) => .ok seq
          | _ => .error "Inner SignedData not a SEQUENCE"
    | .sequence seq => .ok seq
    | _ => .error "Unexpected SignedData format"

/-- `extract_signer_info`: the last child is the SignerInfo SET, whose first
element is the SignerInfo SEQUENCE. -/
def extract_signer_info (signedDataSeq : List ASN1Block) :
    Except String (List ASN1Block) :=
  match signedDataSeq.getLast? with
  | some (.set items) =>
      match items.head? with
      | some (.sequence signerInfo) => .ok signerInfo
      | _ => .error "Expected SignerInfo SEQUENCE"
  | _ => .error "Expected SignerInfo SET"

/-- `extract_issuer_and_digest`: the signer's certificate serial from
`signer_info[1]` and the digest-algorithm OID from `signer_info[2]`. -/
def extract_issuer_and_digest (signerInfo : List ASN1Block) :
    Except String (Nat × List Nat) :=
  match signerInfo.get? 1 with
  | none => .error "panic: index out of bounds"
  | some b1 =>
    let serial? : Except String Nat :=
      match b1 with
      | .sequence parts =>
          if parts.length == 2 then
            match parts.get? 1 with
            | some (.integer n) => .ok n
            | _ => .error "Expected serialNumber INTEGER"
          else .error "Expected issuerAndSerialNumber SEQUENCE"
      | _ => .error "Expected issuerAndSerialNumber SEQUENCE"
    match serial? with
    | .error e => .error e
    | .ok serial =>
      match signerInfo.get? 2 with
      | none => .error "panic: index out of bounds"
      | some b2 =>
        match b2 with
        | .sequence items =>
            match items.head? with
            | none => .error "panic: index out of bounds"
            | some (.objectIdentifier o) => .ok (serial, o)
            | some _ => .error "Invalid digestAlgorithm"
        | _ => .error "Digest algorithm missing"

/-- `compute_sha256_digest`: SHA-256 only; any other digest OID is an
error. -/
def compute_sha256_digest (data : List Nat) (digestOid : List Nat) :
    Except String (List Nat) :=
  if digestOid ≠ sha256Oid then .error "Only SHA-256 is supported for Alipay PDFs"
  else .ok (sha256 data)

/-- The length bytes `extract_signed_attributes_der` emits: short form below
128, `0x81` one-byte form up to 255, and otherwise the `0x82` two-byte form
(truncating lengths above 65535 exactly as the `as u8` casts do). -/
def signedAttrsLenBytes (len : Nat) : List Nat :=
  if len < 128 then [len]
  else if len ≤ 255 then [0x81, len]
  else [0x82, (len >>> 8) % 256, len % 256]

/-- `extract_signed_attributes_der`: find the `[0] IMPLICIT` signed
attributes and re-tag them as a DER SET. -/
def extract_signed_attributes_der : List ASN1Block → Except String (List Nat)
  | [] => .error "signedAttrs [0] not found"
  | .unknown .contextSpecific true tag content :: rest =>
      if tag == 0 then .ok (0x31 :: signedAttrsLenBytes content.length ++ content)
      else extract_signed_attributes_der rest
  | _ :: rest => extract_signed_attributes_der rest

/-- `extract_signature`: the signature OCTET STRING sits at index 5 of the
SignerInfo, or 4 when the signed-attribute digest is empty. -/
def extract_signature (signerInfo : List ASN1Block) (digestBytes : List Nat) :
    Except String (List Nat) :=
  let sigIndex := if digestBytes.isEmpty then 4 else 5
  match signerInfo.get? sigIndex with
  | some (.octetString s) => .ok s
  | _ => .error "Signature not found"

/-- `extract_message_digest`: find the `messageDigest` attribute in the
signed-attributes SET and return its OCTET STRING. -/
def findMessageDigest : List ASN1Block → Option (List Nat)
  | [] => none
  | .sequence items :: rest =>
      match items.head?, items.get? 1 with
      | some (.objectIdentifier o), some (.set inner) =>
          if o = messageDigestOid then
            match inner.head? with
            | some (.octetString d) => some d
            | _ => findMessageDigest rest
          else findMessageDigest rest
      | _, _ => findMessageDigest rest
  | _ :: rest => findMessageDigest rest

/-- `extract_message_digest`, including the unwrap of a singleton outer
SET. -/
def extract_message_digest (attrs : List ASN1Block) : Except String (List Nat) :=
  let candidates :=
    match attrs.head? with
    | some (.set inner) => if attrs.length == 1 then inner else attrs
    | _ => attrs
  match findMessageDigest candidates with
  | some d => .ok d
  | none => .error "messageDigest not found"

/-- `find_certificates`: locate the `[0]` certificate bag and flatten it to a
list of certificate blocks; absence yields the empty list. -/
def find_certificates (fromDer : FromDer) (signedDataSeq : List ASN1Block) :
    Except String (List ASN1Block) :=
  let isCertsBlock : ASN1Block → Bool := fun b =>
    match b with
    | .explicit .contextSpecific tag _ => tag == 0
    | .unknown .contextSpecific _ tag _ => tag == 0
    | _ => false
  match signedDataSeq.find? isCertsBlock with
  | some (.unknown .contextSpecific _ _ data) =>
      match fromDer data with
      | .error e => .error ("Cert parse error: " ++ e)
      | .ok parsed =>
        match parsed with
        | [.set items] => .ok items
        | [.sequence items] => .ok items
        | seqs =>
            if seqs.all (fun b => match b with | .sequence _ => true | _ => false)
            then .ok seqs
            else .error "Unexpected certificate structure"
  | some (.explicit .contextSpecific _ inner) =>
      match inner with
      | .set certs => .ok certs
      | .sequence fields => .ok [.sequence fields]
      | _ => .error "Unexpected explicit cert block"
  | _ => .ok []

/-- `get_tbs_for_serial`: scan the certificate bag for the certificate whose
`tbsCertificate` serial (field 1) equals the signer's serial; no match is an
error. -/
def get_tbs_for_serial : List ASN1Block → Nat → Except String (List ASN1Block)
  | [], _ => .error "No matching certificate found"
  | cert :: rest, targetSerial =>
    match cert with
    | .sequence fields =>
        match fields.head? with
        | none => .error "panic: index out of bounds"
        | some f0 =>
          let tbs? : Option (List ASN1Block) :=
            match f0 with
            | .explicit .contextSpecific _ _ => some fields
            | .sequence seq => some seq
            | _ => none
          match tbs? with
          | none => get_tbs_for_serial rest targetSerial
          | some tbs =>
            match tbs.get? 1 with
            | none => .error "panic: index out of bounds"
            | some (.integer serial) =>
                if serial = targetSerial then .ok tbs
                else get_tbs_for_serial rest targetSerial
            | some _ => get_tbs_for_serial rest targetSerial
    | _ => get_tbs_for_serial rest targetSerial

/-- `find_spki`: the first tbs field that is a SEQUENCE starting with an
AlgorithmIdentifier whose OID is `rsaEncryption`. -/
def find_spki : List ASN1Block → Except String (List ASN1Block)
  | [] => .error "subjectPublicKeyInfo not found"
  | .sequence sf :: rest =>
      match sf.head? with
      | some (.sequence alg) =>
          match alg.head? with
          | some (.objectIdentifier o) =>
              if o = rsaEncryptionOid then .ok sf else find_spki rest
          | _ => find_spki rest
      | _ => find_spki rest
  | _ :: rest => find_spki rest

/-- `extract_pubkey_bitstring`: the BIT STRING at index 1 of the SPKI. -/
def extract_pubkey_bitstring (spki : List ASN1Block) : Except String (List Nat) :=
  match spki.get? 1 with
  | some (.bitString _ d) => .ok d
  | _ => .error "Expected BIT STRING for public key"

/-- `parse_rsa_pubkey`: parse the BIT STRING contents and expect an RSA key
SEQUENCE. -/
def parse_rsa_pubkey (fromDer : FromDer) (bitstring : List Nat) :
    Except String (List ASN1Block) :=
  match fromDer bitstring with
  | .error e => .error ("RSA key parse error: " ++ e)
  | .ok blocks =>
    match blocks.head? with
    | some (.sequence items) => .ok items
    | _ => .error "RSA key not a SEQUENCE"

/-- `extract_pubkey_components`: find the signer's certificate and pull the
RSA modulus and exponent out of its SPKI. -/
def extract_pubkey_components (fromDer : FromDer) (signedDataSeq : List ASN1Block)
    (signerSerial : Nat) : Except String (Nat × Nat) :=
  match find_certificates fromDer signedDataSeq with
  | .error e => .error e
  | .ok certificates =>
    match get_tbs_for_serial certificates signerSerial with
    | .error e => .error e
    | .ok tbsFields =>
      match find_spki tbsFields with
      | .error e => .error e
      | .ok spkiFields =>
        match extract_pubkey_bitstring spkiFields with
        | .error e => .error e
        | .ok bitstring =>
          match parse_rsa_pubkey fromDer bitstring with
          | .error e => .error e
          | .ok rsaSeq =>
            match rsaSeq.head? with
            | none => .error "panic: index out of bounds"
            | some (.integer m) =>
                match rsaSeq.get? 1 with
                | some (.integer e) => .ok (m, e)
                | some _ => .error "Exponent not found"
                | none => .error "panic: index out of bounds"
            | some _ => .error "Modulus not found"

/-- `parse_signed_data`: the full PKCS#7 walk, in the source's order. -/
def parse_signed_data (fromDer : FromDer) (derBytes : List Nat) :
    Except String VerifierParams :=
  match fromDer derBytes with
  | .error e => .error ("DER parse error: " ++ e)
  | .ok blocks =>
    match extract_content_info blocks with
    | .error e => .error e
    | .ok contentInfo =>
      match extract_signed_children fromDer contentInfo with
      | .error e => .error e
      | .ok signedChildren =>
        match extract_signer_info signedChildren with
        | .error e => .error e
        | .ok signerInfo =>
          match extract_issuer_and_digest signerInfo with
          | .error e => .error e
          | .ok (signerSerial, digestOid) =>
            match extract_signed_attributes_der signerInfo with
            | .error e => .error e
            | .ok signedAttrsDer =>
              match compute_sha256_digest signedAttrsDer digestOid with
              | .error e => .error e
              | .ok signedAttrDigest =>
                match fromDer signedAttrsDer with
                | .error e => .error ("signedAttrs parse error: " ++ e)
                | .ok signedAttrs =>
                  match extract_message_digest signedAttrs with
                  | .error e => .error e
                  | .ok messageDigest =>
                    match extract_signature signerInfo signedAttrDigest with
                    | .error e => .error e
                    | .ok signature =>
                      match extract_pubkey_components fromDer signedChildren signerSerial with
                      | .error e => .error e
                      | .ok (modulus, exponent) =>
                        .ok ⟨modulus, exponent, signature, signedAttrDigest, messageDigest⟩

/-- Minimal big-endian bytes of a natural number (`[0]` for zero). -/
def natBeBytesAux : Nat → Nat → List Nat
  | 0, _ => []
  | _ + 1, 0 => []
  | fuel + 1, n + 1 => natBeBytesAux fuel ((n + 1) / 256) ++ [(n + 1) % 256]

/-- Minimal big-endian byte string of a natural number. -/
def natBeBytes (n : Nat) : List Nat := if n = 0 then [0] else natBeBytesAux n n

/-- `append_der_length` from `lib.rs`: DER length bytes, short form below
128, long form otherwise. -/
def append_der_length (len : Nat) : List Nat :=
  if len < 128 then [len]
  else
    let bytes := natBeBytesAux len len
    (0x80 + bytes.length) :: bytes

/-- DER encoding of a nonnegative INTEGER (`simple_asn1::to_der` of an
`Integer` block): a leading zero byte when the high bit is set. -/
def derInteger (n : Nat) : List Nat :=
  let bs := natBeBytes n
  let body := if 128 ≤ bs.headD 0 then 0 :: bs else bs
  0x02 :: append_der_length body.length ++ body

/-- `to_der` of the AlgorithmIdentifier
`SEQUENCE (rsaEncryption OID, NULL)` — a fixed 15-byte encoding. -/
def algIdentifierDer : List Nat :=
  [0x30, 0x0d, 0x06, 0x09, 0x2a, 0x86, 0x48, 0x86, 0xf7, 0x0d, 0x01, 0x01, 0x01, 0x05, 0x00]

/-- `build_spki_der`: re-emit the SubjectPublicKeyInfo DER from the modulus
and exponent through the fixed template. -/
def build_spki_der (modulus exponent : Nat) : List Nat :=
  let rsaBody := derInteger modulus ++ derInteger exponent
  let rsaDer := 0x30 :: append_der_length rsaBody.length ++ rsaBody
  let bitstring := 0x03 :: append_der_length (rsaDer.length + 1) ++ 0x00 :: rsaDer
  let spkiBody := algIdentifierDer ++ bitstring
  0x30 :: append_der_length spkiBody.length ++ spkiBody

/-- `PdfSignatureResult` from `lib.rs`. -/
structure PdfSignatureResult where
  isValid : Bool
  publicKeyDerHash : List Nat
deriving Repr, DecidableEq

/-- `verify_pdf_signature`: extraction and parsing failures propagate as
errors; a message-digest mismatch or a failed RSA verification yields
`is_valid = false` with an empty fingerprint; success yields the SHA-256 of
the rebuilt SPKI. -/
def verify_pdf_signature (fromDer : FromDer)
    (rsaVerify : Nat → Nat → List Nat → List Nat → Except String Bool)
    (sigExtract : Except String (List Nat × List Nat)) :
    Except String PdfSignatureResult :=
  match sigExtract with
  | .error e => .error ("Failed to extract signature: " ++ e)
  | .ok (signatureDer, signedData) =>
    match parse_signed_data fromDer signatureDer with
    | .error e => .error ("Failed to parse signature: " ++ e)
    | .ok params =>
      let calculatedHash := sha256 signedData
      if params.signedDataMessageDigest ≠ calculatedHash then
        .ok ⟨false, []⟩
      else
        match rsaVerify params.modulus params.exponent params.signedAttrDigest
            params.signature with
        | .error e => .error e
        | .ok signatureValid =>
          if ¬ signatureValid then
            .ok ⟨false, []⟩
          else
            .ok ⟨true, sha256 (build_spki_der params.modulus params.exponent)⟩

/-! ## Concrete scenarios

Specific database states, receipts and collaborator responses used to
evaluate the embedded handlers on closed inputs. -/

/-- The code points of a string literal. -/
def cps (s : String) : List Nat := s.data.map Char.toNat

/-- An order holding one billion base units, as in the spec's happy-path
scenario. -/
def scOrder : DbOrder :=
  { seller := "s", token := "tok", totalAmount := 1000000000,
    remainingAmount := 1000000000, exchangeRate := 730, rail := 0,
    accountId := "", accountName := "", createdAt := 0, isPublic := true,
    privateCode := none }

/-- A database holding only `scOrder` under id `o1`. -/
def scDb : Db := { orders := [("o1", scOrder)], trades := [], withdrawals := [], syncCursor := [] }

/-- The database after one application of the `TradeCreated` handler for a
trade of 100000000 tokens plus a 1000000 fee. -/
def scOnce : Db :=
  (handle_trade_created scDb 0 "t1" "o1" "buyer" "tok" 100000000 1000000 10000 900 none).1

/-- The database after re-applying the same `TradeCreated` event. -/
def scTwice : Db :=
  (handle_trade_created scOnce 0 "t1" "o1" "buyer" "tok" 100000000 1000000 10000 900 none).1

/-- A `TradeCreated` log whose parent order is absent, so the handler's
remaining-amount adjustment errors. -/
def orphanTradeEvent : ChainEvent := .tradeCreated "t1" "oX" "b" "tok" 5 1 100 900 none

/-- A reconciler state with cursor 100 over an empty projection. -/
def orphanSyncState : SyncState :=
  { startBlock := 100,
    db := { orders := [], trades := [], withdrawals := [], syncCursor := [("c", 100)] } }

/-- A settled trade whose receipt (transaction id `TX1`) is on file. -/
def settledTradeTX1 : DbTrade :=
  { orderId := "o1", buyer := "b", tokenAmount := 5, cnyAmount := 10000,
    feeAmount := some 1, rail := 0, transactionId := some (cps "TX1"),
    paymentTime := some (cps "2024-01-01 08:00:00"), createdAt := 0,
    expiresAt := 900, status := 1, escrowTxHash := some "0xe",
    settlementTxHash := some "0xs", pdfFile := some [1, 2, 3],
    pdfFilename := some "old.pdf", axiomProofId := some "p1",
    settlementError := none }

/-- A fresh pending trade with no receipt yet. -/
def pendingTradeT2 : DbTrade :=
  { orderId := "o1", buyer := "b2", tokenAmount := 5, cnyAmount := 10000,
    feeAmount := some 1, rail := 0, transactionId := none, paymentTime := none,
    createdAt := 0, expiresAt := 900, status := 0, escrowTxHash := some "0xe2",
    settlementTxHash := none, pdfFile := none, pdfFilename := none,
    axiomProofId := none, settlementError := none }

/-- A database with the settled trade `t1` and the pending trade `t2`. -/
def replayDb : Db :=
  { orders := [], trades := [("t1", settledTradeTX1), ("t2", pendingTradeT2)],
    withdrawals := [], syncCursor := [] }

/-- Receipt fields reusing the settled trade's transaction id `TX1`. -/
def replayExt : ExtractedFields :=
  { transactionId := cps "TX1", paymentTime := cps "2024-01-01 12:00:00",
    publicKeyDerHash := List.replicate 32 0 }

/-- Receipt fields with a fresh transaction id `TXNEW`. -/
def freshExt : ExtractedFields :=
  { transactionId := cps "TXNEW", paymentTime := cps "2024-01-01 12:00:00",
    publicKeyDerHash := List.replicate 32 0 }

/-- Collaborator responses: the on-chain commitment is all zeros and the
prover's execute mode reveals an empty output. -/
def zeroEnv : ValidateEnv :=
  { onchainAccountHash := .ok (List.replicate 32 0),
    proverExecuteOutput := .ok [], contractPkHash := .ok (List.replicate 32 0) }

/-- A database holding only the settled trade `t1`. -/
def settledOnlyDb : Db :=
  { orders := [], trades := [("t1", settledTradeTX1)], withdrawals := [], syncCursor := [] }

/-- The outcome of calling validate on the already-settled trade `t1` with a
new receipt carrying a fresh transaction id. -/
def validateOnSettledOut : ValidateOutcome :=
  validate_handler settledOnlyDb "t1" [9, 9] "new.pdf" (.ok freshExt) zeroEnv

/-- A SignerInfo whose digest-algorithm OID is not SHA-256. -/
def badOidSignerInfo : List ASN1Block :=
  [.integer 1, .sequence [.nullBlock, .integer 7],
   .sequence [.objectIdentifier [1, 2, 3]], .unknown .contextSpecific true 0 [1, 2]]

/-- A parsed PKCS#7 tree around `badOidSignerInfo`. -/
def badOidBlocks : List ASN1Block :=
  [.sequence [.objectIdentifier pkcs7SignedDataOid,
              .sequence [.integer 1, .set [.sequence badOidSignerInfo]]]]

/-- A DER reader that parses the signature bytes `[0]` into
`badOidBlocks`. -/
def badOidFromDer : FromDer :=
  fun bytes => if bytes = [0] then .ok badOidBlocks else .error "unused"

/-- An RSA collaborator that always reports an invalid signature. -/
def rsaAlwaysFalse : Nat → Nat → List Nat → List Nat → Except String Bool :=
  fun _ _ _ _ => .ok false

/-! ## Helper lemmas -/

theorem utf8Len_ascii {c : Nat} (h : c < 128) : utf8Len c = 1 := by
  simp [utf8Len, h]

theorem isAsciiStr_cons {c : Nat} {cs : List Nat} :
    isAsciiStr (c :: cs) = true ↔ c < 128 ∧ isAsciiStr cs = true := by
  simp [isAsciiStr]

theorem strByteLen_ascii {s : List Nat} (h : isAsciiStr s = true) :
    strByteLen s = s.length := by
  induction s with
  | nil => rfl
  | cons c cs ih =>
      obtain ⟨hc, hcs⟩ := isAsciiStr_cons.mp h
      have hrec := ih hcs
      simp only [strByteLen, List.map_cons, List.sum_cons, utf8Len_ascii hc,
        List.length_cons] at hrec ⊢
      omega

theorem byteTake_ascii {s : List Nat} (h : isAsciiStr s = true) :
    ∀ {n : Nat}, n ≤ s.length → byteTake s n = some (s.take n) := by
  induction s with
  | nil =>
      intro n hn
      have : n = 0 := Nat.le_zero.mp hn
      subst this
      rfl
  | cons c cs ih =>
      intro n hn
      obtain ⟨hc, hcs⟩ := isAsciiStr_cons.mp h
      match n with
      | 0 => rfl
      | n + 1 =>
          have hn' : n ≤ cs.length := by simpa using hn
          simp [byteTake, utf8Len_ascii hc, ih hcs hn']

theorem byteDrop_ascii {s : List Nat} (h : isAsciiStr s = true) :
    ∀ {n : Nat}, n ≤ s.length → byteDrop s n = some (s.drop n) := by
  induction s with
  | nil =>
      intro n hn
      have : n = 0 := Nat.le_zero.mp hn
      subst this
      rfl
  | cons c cs ih =>
      intro n hn
      obtain ⟨hc, hcs⟩ := isAsciiStr_cons.mp h
      match n with
      | 0 => rfl
      | n + 1 =>
          have hn' : n ≤ cs.length := by simpa using hn
          simp [byteDrop, utf8Len_ascii hc, ih hcs hn']

theorem isAsciiStr_of_subset {s t : List Nat} (hsub : ∀ x ∈ t, x ∈ s)
    (h : isAsciiStr s = true) : isAsciiStr t = true := by
  rw [isAsciiStr, List.all_eq_true] at h ⊢
  intro x hx
  exact h x (hsub x hx)

theorem isAsciiStr_rustTrim {s : List Nat} (h : isAsciiStr s = true) :
    isAsciiStr (rustTrim s) = true := by
  refine isAsciiStr_of_subset (fun x hx => ?_) h
  rw [rustTrim] at hx
  have h1 := (List.dropWhile_sublist (l := (s.dropWhile isRustWhitespace).reverse)
    isRustWhitespace).subset
  simp only [List.mem_reverse] at hx ⊢
  have := h1 hx
  rw [List.mem_reverse] at this
  exact (List.dropWhile_sublist isRustWhitespace).subset this

theorem isAsciiStr_takeWhile {s : List Nat} (p : Nat → Bool) (h : isAsciiStr s = true) :
    isAsciiStr (s.takeWhile p) = true :=
  isAsciiStr_of_subset (fun _ hx => (List.takeWhile_sublist p).subset hx) h

/-- On an ASCII account id the source's byte-based masking agrees with the
character-based rules applied to the trimmed id, and never panics. -/
theorem mask_ascii {s : List Nat} (h : isAsciiStr s = true) :
    mask_alipay_account_id s = some (maskSpecRules (rustTrim s)) := by
  have hta : isAsciiStr (rustTrim s) = true := isAsciiStr_rustTrim h
  simp only [mask_alipay_account_id, maskSpecRules]
  generalize hgen : rustTrim s = t at hta ⊢
  have hlen : strByteLen t = t.length := strByteLen_ascii hta
  have hLa : isAsciiStr (t.takeWhile (fun x => decide (x ≠ 64))) = true :=
    isAsciiStr_takeWhile _ hta
  have hLlen := strByteLen_ascii hLa
  by_cases h1 : (t.any fun x => x == 64) = true
  · rw [if_pos h1, if_pos h1]
    by_cases h2 : strByteLen (t.takeWhile fun x => decide (x ≠ 64)) ≤ 3
    · rw [if_pos h2, List.take_of_length_le (hLlen ▸ h2)]
    · rw [if_neg h2]
      have h3 : 3 ≤ (t.takeWhile fun x => decide (x ≠ 64)).length := by omega
      rw [byteTake_ascii hLa h3]
      rfl
  · rw [if_neg h1, if_neg h1]
    by_cases h2 : (strByteLen t == 11 && t.all isAsciiDigit) = true
    · have h2' : (t.length == 11 && t.all isAsciiDigit) = true := by rw [← hlen]; exact h2
      have h11 : t.length = 11 := by
        have hsplit := h2'
        simp only [Bool.and_eq_true, beq_iff_eq] at hsplit
        exact hsplit.1
      rw [if_pos h2, if_pos h2', byteTake_ascii hta (by omega), byteDrop_ascii hta (by omega)]
    · have h2' : ¬ (t.length == 11 && t.all isAsciiDigit) = true := by rw [← hlen]; exact h2
      rw [if_neg h2, if_neg h2']
      by_cases h3 :
          (10 ≤ strByteLen t && isAsciiDigit (t.headD 0) && (t.any fun x => x == 45)) = true
      · have h3' :
            (10 ≤ t.length && isAsciiDigit (t.headD 0) && (t.any fun x => x == 45)) = true := by
          rw [← hlen]; exact h3
        have h10 : 10 ≤ t.length := by
          have hsplit := h3'
          simp only [Bool.and_eq_true, decide_eq_true_eq] at hsplit
          exact hsplit.1.1
        have h7 : 7 ≤ strByteLen t := by omega
        rw [if_pos h3, if_pos h3', if_pos h7, hlen,
          byteTake_ascii hta (by omega), byteDrop_ascii hta (by omega)]
      · have h3' :
            ¬ (10 ≤ t.length && isAsciiDigit (t.headD 0) && (t.any fun x => x == 45)) = true := by
          rw [← hlen]; exact h3
        rw [if_neg h3, if_neg h3']
        by_cases h4 : strByteLen t ≤ 3
        · rw [if_pos h4, List.take_of_length_le (hlen ▸ h4)]
        · rw [if_neg h4]
          have h5 : 3 ≤ t.length := by omega
          rw [byteTake_ascii hta h5]
          rfl

theorem intAsU64_lt (t : Int) : intAsU64 t < 2 ^ 64 := by
  rw [intAsU64]
  have hpos : (0 : Int) < 2 ^ 64 := by positivity
  have h1 : Int.emod t (2 ^ 64) < 2 ^ 64 := Int.emod_lt_of_pos t hpos
  have h2 : 0 ≤ Int.emod t (2 ^ 64) := Int.emod_nonneg t (by positivity)
  have := (Int.toNat_lt h2 (n := 2 ^ 64)).mpr (by push_cast; exact h1)
  exact this

/-! ## Claim C8 — create-trade fiat-amount checks -/

/-- C8 (counterexample): a create-trade request with fiat amount `0` (a valid
32-byte order id, a parsable buyer) is NOT rejected — `0 % 100 = 0` passes
the whole-yuan check and the handler proceeds to the on-chain `fillOrder`
submission with amount 0, contradicting the claim that a zero fiat amount is
rejected with an error before any submission. -/
theorem c8_zero_not_rejected :
    create_trade_handler (hexWith0x (List.replicate 32 0)) true [48] = .ok 0 := by
  decide

/-- C8 (amended): with a well-formed order id and buyer, the handler rejects
exactly the fiat amounts not divisible by 100 before submission; any amount
divisible by 100 — including 0 — is passed on to the on-chain submission. -/
theorem c8_divisibility_check (oid bytes s : List Nat) (n : Nat)
    (h1 : hexDecode (stripHex0x oid) = some bytes) (h2 : bytes.length = 32)
    (h3 : parseDecU256 s = some n) :
    create_trade_handler oid true s =
      if n % 100 = 0 then .ok n
      else .error (.badRequest "fiat_amount must be whole yuan (divisible by 100)") := by
  rw [create_trade_handler, h1]
  simp only [h2, ne_eq, not_true_eq_false, if_false, not_false_eq_true, if_true,
    Bool.not_true, reduceIte, h3]
  by_cases hm : n % 100 = 0
  · simp [hm]
  · simp [hm]

/-- C8 (witness): the amended claim at fiat amount 150 — rejected as not
divisible by 100. -/
theorem c8_divisibility_check_witness :
    hexDecode (stripHex0x (hexWith0x (List.replicate 32 (0 : Nat)))) =
      some (List.replicate 32 (0 : Nat)) ∧
    (List.replicate 32 (0 : Nat)).length = 32 ∧
    parseDecU256 [49, 53, 48] = some 150 ∧
    create_trade_handler (hexWith0x (List.replicate 32 (0 : Nat))) true [49, 53, 48] =
      (if 150 % 100 = 0 then .ok 150
       else .error (.badRequest "fiat_amount must be whole yuan (divisible by 100)")) :=
  ⟨by decide, by decide, by decide,
   c8_divisibility_check (hexWith0x (List.replicate 32 (0 : Nat)))
     (List.replicate 32 (0 : Nat)) [49, 53, 48] 150 (by decide) (by decide) (by decide)⟩

/-! ## Claim C9 — payment-time parsing safety -/

/-- C9 (counterexample): the conforming input `1970-01-01 00:00:00` parses,
its epoch as `u64` is below `8 * 3600 = 28800`, and the `u64` subtraction of
the 8-hour offset wraps around to `2^64 - 28800` — the subtraction does
underflow, contradicting the claim. -/
theorem c9_underflow_at_epoch_zero :
    parseDateTime (cps "1970-01-01 00:00:00") = some ⟨1970, 1, 1, 0, 0, 0⟩ ∧
    intAsU64 (epochOf ⟨1970, 1, 1, 0, 0, 0⟩) < 28800 ∧
    parse_payment_time (cps "1970-01-01 00:00:00") = .ok (2 ^ 64 - 28800) := by
  refine ⟨by decide, by decide, by decide⟩

/-- C9 (amended): for every conforming input whose epoch, after the
`i64 → u64` cast, is at least `28800` (timestamps from 1970-01-01 08:00:00
onward, and pre-1970 timestamps, whose cast wraps high), `parse_payment_time`
returns without underflow the cast epoch minus `28800`; the subtraction wraps
exactly when the cast epoch is below `28800`. -/
theorem c9_no_underflow_above_offset (s : List Nat) (p : DateTimeParts)
    (h1 : parseDateTime s = some p) (h2 : 28800 ≤ intAsU64 (epochOf p)) :
    parse_payment_time s = .ok (intAsU64 (epochOf p) - 28800) := by
  have hlt : intAsU64 (epochOf p) < 2 ^ 64 := intAsU64_lt _
  have harith : (intAsU64 (epochOf p) + 2 ^ 64 - 28800) % 2 ^ 64
      = intAsU64 (epochOf p) - 28800 := by omega
  simp only [parse_payment_time, h1, harith]

/-- C9 (witness): the amended claim at `2024-01-01 00:00:00`. -/
theorem c9_no_underflow_witness :
    parseDateTime (cps "2024-01-01 00:00:00") = some ⟨2024, 1, 1, 0, 0, 0⟩ ∧
    28800 ≤ intAsU64 (epochOf ⟨2024, 1, 1, 0, 0, 0⟩) ∧
    parse_payment_time (cps "2024-01-01 00:00:00") =
      .ok (intAsU64 (epochOf ⟨2024, 1, 1, 0, 0, 0⟩) - 28800) :=
  ⟨by decide, by decide,
   c9_no_underflow_above_offset _ _ (by decide) (by decide)⟩

/-! ## Claim C10 — masking safety -/

/-- C10 (counterexample): on the four-character Cyrillic account id
`абвг` (code points 1072–1075, two UTF-8 bytes each), the fallback's
first-three-bytes cut falls inside the second character and
`mask_alipay_account_id` panics (modelled as `none`), contradicting the claim
that every input yields a string without panicking. -/
theorem c10_mask_panics_on_cyrillic :
    mask_alipay_account_id [1072, 1073, 1074, 1075] = none := by
  decide

/-- C10 (amended): on every ASCII account id every byte cut lands on a
character boundary and `mask_alipay_account_id` returns a value. -/
theorem c10_mask_total_on_ascii (s : List Nat) (h : isAsciiStr s = true) :
    (mask_alipay_account_id s).isSome = true := by
  rw [mask_ascii h]
  rfl

/-- C10 (witness): the amended claim at an ASCII email address. -/
theorem c10_mask_total_witness :
    isAsciiStr (cps "test@example.com") = true ∧
    (mask_alipay_account_id (cps "test@example.com")).isSome = true :=
  ⟨by decide, c10_mask_total_on_ascii _ (by decide)⟩

/-! ## Claim C2 — the expected-hash formula of validate -/

theorem hexDigitVal_hexDigitChar {n : Nat} (h : n < 16) :
    hexDigitVal (hexDigitChar n) = some n := by
  by_cases h10 : n < 10
  · have hc : hexDigitChar n = 48 + n := by simp [hexDigitChar, h10]
    rw [hc, hexDigitVal]
    have c1 : (48 ≤ 48 + n && 48 + n ≤ 57) = true := by
      simp only [Bool.and_eq_true, decide_eq_true_eq]
      omega
    rw [if_pos c1]
    congr 1
    omega
  · have hc : hexDigitChar n = 87 + n := by simp [hexDigitChar, h10]
    rw [hc, hexDigitVal]
    have c1 : ¬ ((48 ≤ 87 + n && 87 + n ≤ 57) = true) := by
      simp only [Bool.and_eq_true, decide_eq_true_eq]
      omega
    rw [if_neg c1]
    have c2 : (97 ≤ 87 + n && 87 + n ≤ 102) = true := by
      simp only [Bool.and_eq_true, decide_eq_true_eq]
      omega
    rw [if_pos c2]
    congr 1
    omega

theorem hexDecode_hexEncode {bs : List Nat} (h : ∀ b ∈ bs, b < 256) :
    hexDecode (hexEncode bs) = some bs := by
  induction bs with
  | nil => rfl
  | cons b rest ih =>
      have hb : b < 256 := h b (by simp)
      have hrest : ∀ x ∈ rest, x < 256 := fun x hx => h x (by simp [hx])
      have e1 : hexEncode (b :: rest) =
          hexDigitChar (b / 16) :: hexDigitChar (b % 16) :: hexEncode rest := by
        simp [hexEncode]
      rw [e1]
      have hdiv : b / 16 < 16 := by omega
      have hmod : b % 16 < 16 := by omega
      simp only [hexDecode, hexDigitVal_hexDigitChar hdiv, hexDigitVal_hexDigitChar hmod,
        ih hrest]
      have hb16 : 16 * (b / 16) + b % 16 = b := by omega
      rw [hb16]

theorem stripHex0x_hexWith0x (bs : List Nat) : stripHex0x (hexWith0x bs) = hexEncode bs := by
  rfl

/-- C2 (confirmed): for every 32-byte on-chain account hash `A`, signer-key
fingerprint `pk`, transaction-id line `L25`, payment-time line `L27` and
server-side cent amount, the expected hash computed during validate is
`SHA256(0x01 ++ pk ++ A ++ SHA256(25_le ++ L25) ++ SHA256(27_le ++ L27 ++
29_le ++ L29))`, where `L29` is the amount label followed by
`units.cc` formatted from the server-side cent amount — not the amount
printed in the receipt. -/
theorem c2_expected_hash_formula (A pk l25 l27 : List Nat) (cents : Nat)
    (hA : A.length = 32) (hAb : ∀ b ∈ A, b < 256) (hpk : ∀ b ∈ pk, b < 256) :
    compute_expected_hash_with_onchain_account_hash (hexWith0x A) l25 l27
      (format_amount_line cents) (hexEncode pk) =
    .ok (sha256 (1 :: pk ++ A ++ sha256 (le32 25 ++ utf8Encode l25) ++
      sha256 (le32 27 ++ utf8Encode l27 ++ le32 29 ++
        utf8Encode (amountLabel ++ natToDecCP (cents / 100) ++ [46] ++
          zeroPad2 (cents % 100))))) := by
  rw [compute_expected_hash_with_onchain_account_hash, stripHex0x_hexWith0x,
    hexDecode_hexEncode hAb]
  simp only [hA, ne_eq, not_true_eq_false, if_false, hexDecode_hexEncode hpk,
    compute_tx_id_hash, compute_time_amount_hash, format_amount_line]

/-- C2 (witness): the formula at an all-zero account hash, an all-one
fingerprint, the spec's scenario lines and 10000 cents. -/
theorem c2_expected_hash_witness :
    (List.replicate 32 (0 : Nat)).length = 32 ∧
    (∀ b ∈ List.replicate 32 (0 : Nat), b < 256) ∧
    (∀ b ∈ List.replicate 32 (1 : Nat), b < 256) ∧
    compute_expected_hash_with_onchain_account_hash
      (hexWith0x (List.replicate 32 (0 : Nat))) (cps "2024...0001")
      (cps "2024-01-01 00:00:00") (format_amount_line 10000)
      (hexEncode (List.replicate 32 (1 : Nat))) =
    .ok (sha256 (1 :: List.replicate 32 (1 : Nat) ++ List.replicate 32 (0 : Nat) ++
      sha256 (le32 25 ++ utf8Encode (cps "2024...0001")) ++
      sha256 (le32 27 ++ utf8Encode (cps "2024-01-01 00:00:00") ++ le32 29 ++
        utf8Encode (amountLabel ++ natToDecCP (10000 / 100) ++ [46] ++
          zeroPad2 (10000 % 100))))) :=
  ⟨by decide, by decide, by decide,
   c2_expected_hash_formula (List.replicate 32 (0 : Nat)) (List.replicate 32 (1 : Nat))
     (cps "2024...0001") (cps "2024-01-01 00:00:00") 10000
     (by decide) (by decide) (by decide)⟩

/-! ## Claim C7 — plain-field commitment versus from-lines commitment -/

/-- C7 (counterexample): at the account id `" abcdef"` (a leading space,
then ASCII) the source's commitment — whose masking first trims the id —
differs from the claim's formula, whose masking rules carry no trim: the
claim's rule (d) yields `" ab***"` while the code masks to `"abc***"`, and
the two line-21 texts hash to different commitments. -/
theorem c7_trim_mismatch :
    compute_account_lines_hash (cps "X") (cps " abcdef") ≠
      some (compute_account_lines_hash_from_lines
        (accountNameLabel ++ (if isAsciiStr (cps "X") then toUppercaseAscii (cps "X")
                              else cps "X"))
        (accountNoLabel ++ maskSpecRules (cps " abcdef"))) := by
  decide

/-- C7 (amended): for every account name and every account id that is ASCII
and has no surrounding whitespace — where the code's byte cuts coincide with
the claim's character cuts and the trim is the identity — the commitment
computed from the plain fields equals the from-lines commitment over the
label-prefixed lines with the masking rules (a)–(d). -/
theorem c7_commitment_from_lines (name id : List Nat)
    (h1 : isAsciiStr id = true) (h2 : rustTrim id = id) :
    compute_account_lines_hash name id =
      some (compute_account_lines_hash_from_lines
        (accountNameLabel ++ (if isAsciiStr name then toUppercaseAscii name else name))
        (accountNoLabel ++ maskSpecRules id)) := by
  simp only [compute_account_lines_hash]
  rw [mask_ascii h1, h2]
  rfl

/-- C7 (witness): the amended claim at the scenario's name and 11-digit
phone-number account id. -/
theorem c7_commitment_witness :
    isAsciiStr (cps "13800138000") = true ∧
    rustTrim (cps "13800138000") = cps "13800138000" ∧
    compute_account_lines_hash (cps "Bob") (cps "13800138000") =
      some (compute_account_lines_hash_from_lines
        (accountNameLabel ++ (if isAsciiStr (cps "Bob") then toUppercaseAscii (cps "Bob")
                              else cps "Bob"))
        (accountNoLabel ++ maskSpecRules (cps "13800138000"))) :=
  ⟨by decide, by decide,
   c7_commitment_from_lines (cps "Bob") (cps "13800138000") (by decide) (by decide)⟩

/-! ## Association-list lemmas -/

theorem alistGet_alistUpdate_self {V : Type} (l : List (String × V)) (k : String) (f : V → V) :
    alistGet (alistUpdate l k f) k = (alistGet l k).map f := by
  induction l with
  | nil => rfl
  | cons hd tl ih =>
      obtain ⟨a, v⟩ := hd
      simp only [alistUpdate, List.map_cons]
      by_cases hak : (a == k) = true
      · rw [if_pos hak]
        simp only [alistGet]
        rw [List.find?_cons_of_pos _ (by simpa using hak),
          List.find?_cons_of_pos _ (by simpa using hak)]
        rfl
      · rw [if_neg hak]
        simp only [alistGet]
        rw [List.find?_cons_of_neg _ (by simpa using hak),
          List.find?_cons_of_neg _ (by simpa using hak)]
        simpa [alistUpdate, alistGet] using ih

theorem alistGet_save (db : Db) (c : String) (n : Nat) :
    alistGet (saveLastSyncedBlock db c n).syncCursor c = some n := by
  unfold saveLastSyncedBlock
  cases hc : alistGet db.syncCursor c with
  | none =>
      simp only [alistGet, Option.map_eq_none'] at hc
      simp only [alistGet, List.find?_append, hc, Option.none_or]
      simp [List.find?]
  | some v =>
      rw [alistGet_alistUpdate_self, hc]
      rfl

/-! ## Claim C3 — chain-event handler idempotence -/

/-- C3 (code-bug evaluation): the first application of the `TradeCreated`
handler leaves the parent order with `1000000000 - 101000000 = 899000000`
remaining; re-applying the very same event decrements again to `798000000`
even though the trade insert hits `ON CONFLICT DO NOTHING` — the handler is
not idempotent, because the remaining-amount adjustment runs
unconditionally. -/
theorem c3_trade_created_not_idempotent :
    (alistGet scOnce.orders "o1").map (·.remainingAmount) = some 899000000 ∧
    (alistGet scTwice.orders "o1").map (·.remainingAmount) = some 798000000 ∧
    scTwice ≠ scOnce := by
  refine ⟨by decide, by decide, by decide⟩

/-! ## Claim C4 — cursor advancement under handler errors -/

/-- C4 (counterexample): a batch whose single `TradeCreated` log references a
missing order makes its handler return an error, yet `sync_events` still
returns success, advances the in-memory cursor to `to_block + 1 = 109`, and
durably saves `109` — the durable cursor does advance past a batch with a
handler error, contradicting the claim. -/
theorem c4_cursor_advances_despite_handler_error :
    ((handleLog orphanSyncState.db 0 orphanTradeEvent).2).isSome = true ∧
    (sync_events orphanSyncState "c" 0 110 (.ok [orphanTradeEvent])).map (·.startBlock) =
      .ok 109 ∧
    (sync_events orphanSyncState "c" 0 110 (.ok [orphanTradeEvent])).map
      (fun st => alistGet st.db.syncCursor "c") = .ok (some 109) := by
  refine ⟨by decide, by decide, by decide⟩

/-- C4 (amended): whenever a batch is due (`cursor < tip - 2`) and the log
fetch succeeds, `sync_events` advances the cursor — in memory and durably —
to `min(cursor + 200, tip - 2) + 1`, regardless of any handler errors, which
are logged and swallowed; only a failure to fetch the logs (a provider
error) leaves the cursor untouched. -/
theorem c4_cursor_advance (st : SyncState) (contract : String) (now : Int)
    (currentBlock : Nat) (logs : List ChainEvent) (e : String)
    (h : st.startBlock < currentBlock - 2) :
    (sync_events st contract now currentBlock (.ok logs)).map (·.startBlock) =
      .ok (min (st.startBlock + 200) (currentBlock - 2) + 1) ∧
    (sync_events st contract now currentBlock (.ok logs)).map
      (fun s => alistGet s.db.syncCursor contract) =
      .ok (some (min (st.startBlock + 200) (currentBlock - 2) + 1)) ∧
    sync_events st contract now currentBlock (.error e) = .error e := by
  have hguard : ¬ (currentBlock - 2 ≤ st.startBlock) := by omega
  refine ⟨?_, ?_, ?_⟩
  · simp only [sync_events, hguard, if_false, Except.map]
  · simp only [sync_events, hguard, if_false, Except.map, alistGet_save]
  · simp only [sync_events, hguard, if_false]

/-- C4 (witness): the amended claim over the orphan-trade scenario. -/
theorem c4_cursor_advance_witness :
    orphanSyncState.startBlock < 110 - 2 ∧
    (sync_events orphanSyncState "c" 0 110 (.ok [orphanTradeEvent])).map (·.startBlock) =
      .ok (min (orphanSyncState.startBlock + 200) (110 - 2) + 1) :=
  ⟨by decide,
   (c4_cursor_advance orphanSyncState "c" 0 110 [orphanTradeEvent] "boom" (by decide)).1⟩

/-! ## Claim C1 — the replay pre-check of validate -/

theorem any_alistUpdate {V : Type} (l : List (String × V)) (k : String) (f : V → V)
    (p : String × V → Bool) (hf : ∀ a v, p (a, f v) = p (a, v)) :
    (alistUpdate l k f).any p = l.any p := by
  induction l with
  | nil => rfl
  | cons hd tl ih =>
      obtain ⟨a, v⟩ := hd
      simp only [alistUpdate, List.map_cons, List.any_cons]
      by_cases hak : (a == k) = true
      · rw [if_pos hak, hf]
        simp only [alistUpdate] at ih
        rw [ih]
      · rw [if_neg hak]
        simp only [alistUpdate] at ih
        rw [ih]

/-- C1 (confirmed): whenever the extracted transaction id is already carried
by some settled trade, validate clears the just-stored receipt of the trade
being validated (also nulling its transaction id and payment time), returns
`REPLAY_ATTACK` with `valid = false`, and never reaches the prover's execute
call. -/
theorem c1_replay_attack (db : Db) (tradeId : String) (pdf : List Nat) (fn : String)
    (f : ExtractedFields) (env : ValidateEnv) (t : DbTrade)
    (hGet : alistGet db.trades tradeId = some t)
    (hUsed : isTransactionIdUsed db f.transactionId = true) :
    (validate_handler db tradeId pdf fn (.ok f) env).result =
      .ok { valid := false, expectedHash := [], actualHash := [],
            validationCode := "REPLAY_ATTACK", transactionId := f.transactionId,
            paymentTime := f.paymentTime } ∧
    (∃ t', alistGet (validate_handler db tradeId pdf fn (.ok f) env).db.trades tradeId =
        some t' ∧ t'.pdfFile = none ∧ t'.transactionId = none) ∧
    Action.callProverExecute ∉ (validate_handler db tradeId pdf fn (.ok f) env).actions := by
  have hsave : tradesSavePdf db tradeId pdf fn = .ok { db with trades := alistUpdate db.trades tradeId (fun tr => { tr with pdfFile := some pdf, pdfFilename := some fn }) } := by
    unfold tradesSavePdf
    rw [hGet]
  have hget1 : alistGet (alistUpdate db.trades tradeId (fun tr => { tr with pdfFile := some pdf, pdfFilename := some fn })) tradeId = some { t with pdfFile := some pdf, pdfFilename := some fn } := by
    rw [alistGet_alistUpdate_self, hGet]
    rfl
  have hget1' : tradesGet { db with trades := alistUpdate db.trades tradeId (fun tr => { tr with pdfFile := some pdf, pdfFilename := some fn }) } tradeId = .ok { t with pdfFile := some pdf, pdfFilename := some fn } := by
    unfold tradesGet
    rw [hget1]
  have hused1 : isTransactionIdUsed { db with trades := alistUpdate db.trades tradeId (fun tr => { tr with pdfFile := some pdf, pdfFilename := some fn }) } f.transactionId = true := by
    unfold isTransactionIdUsed at hUsed ⊢
    rw [any_alistUpdate db.trades tradeId
      (fun tr => { tr with pdfFile := some pdf, pdfFilename := some fn })
      (fun p => p.2.transactionId == some f.transactionId && p.2.status == 1)
      (fun a v => rfl)]
    exact hUsed
  have hclear : tradesClearPdf { db with trades := alistUpdate db.trades tradeId (fun tr => { tr with pdfFile := some pdf, pdfFilename := some fn }) } tradeId = .ok { db with trades := alistUpdate (alistUpdate db.trades tradeId (fun tr => { tr with pdfFile := some pdf, pdfFilename := some fn })) tradeId (fun tr => { tr with pdfFile := none, pdfFilename := none, transactionId := none, paymentTime := none }) } := by
    unfold tradesClearPdf
    rw [hget1]
  have hmain : validate_handler db tradeId pdf fn (.ok f) env = ⟨.ok { valid := false, expectedHash := [], actualHash := [], validationCode := "REPLAY_ATTACK", transactionId := f.transactionId, paymentTime := f.paymentTime }, { db with trades := alistUpdate (alistUpdate db.trades tradeId (fun tr => { tr with pdfFile := some pdf, pdfFilename := some fn })) tradeId (fun tr => { tr with pdfFile := none, pdfFilename := none, transactionId := none, paymentTime := none }) }, [.savePdf, .clearPdf]⟩ := by
    unfold validate_handler
    rw [hsave]
    simp only [hget1', hused1, if_true, hclear]
  refine ⟨by rw [hmain], ?_, by
    rw [hmain]
    exact (by decide : Action.callProverExecute ∉ [Action.savePdf, Action.clearPdf])⟩
  rw [hmain]
  refine ⟨{ { t with pdfFile := some pdf, pdfFilename := some fn } with pdfFile := none, pdfFilename := none, transactionId := none, paymentTime := none }, ?_, rfl, rfl⟩
  rw [alistGet_alistUpdate_self, hget1]
  rfl

/-- C1 (witness): validating the pending trade `t2` with a receipt reusing
the settled trade's transaction id `TX1` returns `REPLAY_ATTACK`. -/
theorem c1_replay_attack_witness :
    alistGet replayDb.trades "t2" = some pendingTradeT2 ∧
    isTransactionIdUsed replayDb replayExt.transactionId = true ∧
    (validate_handler replayDb "t2" [7, 7] "b.pdf" (.ok replayExt) zeroEnv).result =
      .ok { valid := false, expectedHash := [], actualHash := [],
            validationCode := "REPLAY_ATTACK", transactionId := replayExt.transactionId,
            paymentTime := replayExt.paymentTime } :=
  ⟨by decide, by decide,
   (c1_replay_attack replayDb "t2" [7, 7] "b.pdf" replayExt zeroEnv pendingTradeT2
     (by decide) (by decide)).1⟩

/-! ## Claim C6 — terminal trades and validate/settle idempotence -/

/-- C6 (counterexample): calling validate on the already-settled trade `t1`
with a fresh receipt is not a no-op: the prover's execute mode is invoked,
the response is `HASH_MISMATCH` with `valid = false` rather than success
with the prior artifacts, and the previously stored receipt bytes are gone —
`validate_handler` has no terminal-status check. -/
theorem c6_validate_not_noop_on_settled :
    Action.callProverExecute ∈ validateOnSettledOut.actions ∧
    validateOnSettledOut.result.map (fun r => (r.valid, r.validationCode)) =
      .ok (false, "HASH_MISMATCH") ∧
    (alistGet validateOnSettledOut.db.trades "t1").map (·.pdfFile) = some none := by
  refine ⟨by decide, by decide, by decide⟩

/-- C6 (amended): the no-op-returning-success behaviour belongs to the
settle operation: for every trade with settled status, `settle_handler`
returns success with the stored settlement transaction hash immediately,
leaving the database untouched and performing no external action — in
particular it does not invoke the prover. -/
theorem c6_settle_noop_when_settled (db : Db) (tradeId : String) (env : SettleEnv)
    (t : DbTrade) (hGet : alistGet db.trades tradeId = some t) (hst : t.status = 1) :
    settle_handler true db tradeId env =
      ⟨.ok { success := true, txHash := t.settlementTxHash.getD "" }, db, []⟩ := by
  unfold settle_handler tradesGet
  rw [hGet]
  simp [hst]

/-- C6 (witness): the amended claim on the settled trade `t1`. -/
theorem c6_settle_noop_witness :
    alistGet settledOnlyDb.trades "t1" = some settledTradeTX1 ∧
    settledTradeTX1.status = 1 ∧
    settle_handler true settledOnlyDb "t1"
        { cacheHasStreams := true, proverProveOutput := .ok "p", submitResult := .ok "0x1" } =
      ⟨.ok { success := true, txHash := settledTradeTX1.settlementTxHash.getD "" },
       settledOnlyDb, []⟩ :=
  ⟨by decide, by decide,
   c6_settle_noop_when_settled settledOnlyDb "t1"
     { cacheHasStreams := true, proverProveOutput := .ok "p", submitResult := .ok "0x1" }
     settledTradeTX1 (by decide) (by decide)⟩

/-! ## Claim C5 — failure modes of the receipt signature verifier -/

/-- C5 (counterexample): a receipt whose PKCS#7 structure parses but whose
digest-algorithm OID is not SHA-256 makes `verify_pdf_signature` return an
error — not a result with `is_valid = false` — contradicting the claim that
the unsupported-OID failure mode is reported as an invalid result rather
than an error. -/
theorem c5_bad_oid_is_error :
    verify_pdf_signature badOidFromDer rsaAlwaysFalse (.ok ([0], [5, 5])) =
      .error "Failed to parse signature: Only SHA-256 is supported for Alipay PDFs" := by
  decide

/-- C5 (amended): extraction failures, parse failures — which include an
unsupported digest OID and a certificate bag with no certificate matching
the signer's serial — surface as errors; only a message-digest mismatch and
a failed RSA verification yield `is_valid = false`, and they do so with an
empty fingerprint, not a 32-byte zero one. -/
theorem c5_failure_modes :
    (∀ (fromDer : FromDer) (rsa : Nat → Nat → List Nat → List Nat → Except String Bool)
        (e : String),
      verify_pdf_signature fromDer rsa (.error e) =
        .error ("Failed to extract signature: " ++ e)) ∧
    (∀ (fromDer : FromDer) (rsa : Nat → Nat → List Nat → List Nat → Except String Bool)
        (sigDer sd : List Nat) (e : String),
      parse_signed_data fromDer sigDer = .error e →
      verify_pdf_signature fromDer rsa (.ok (sigDer, sd)) =
        .error ("Failed to parse signature: " ++ e)) ∧
    (∀ (fromDer : FromDer) (rsa : Nat → Nat → List Nat → List Nat → Except String Bool)
        (sigDer sd : List Nat) (params : VerifierParams),
      parse_signed_data fromDer sigDer = .ok params →
      params.signedDataMessageDigest ≠ sha256 sd →
      verify_pdf_signature fromDer rsa (.ok (sigDer, sd)) = .ok ⟨false, []⟩) ∧
    (∀ (fromDer : FromDer) (rsa : Nat → Nat → List Nat → List Nat → Except String Bool)
        (sigDer sd : List Nat) (params : VerifierParams),
      parse_signed_data fromDer sigDer = .ok params →
      params.signedDataMessageDigest = sha256 sd →
      rsa params.modulus params.exponent params.signedAttrDigest params.signature = .ok false →
      verify_pdf_signature fromDer rsa (.ok (sigDer, sd)) = .ok ⟨false, []⟩) ∧
    (∀ (data oid : List Nat), oid ≠ sha256Oid →
      compute_sha256_digest data oid = .error "Only SHA-256 is supported for Alipay PDFs") ∧
    (∀ (serials : List Nat) (target : Nat), target ∉ serials →
      get_tbs_for_serial
          (serials.map (fun s => ASN1Block.sequence [.sequence [.nullBlock, .integer s]]))
          target =
        .error "No matching certificate found") := by
  refine ⟨fun fromDer rsa e => rfl, ?_, ?_, ?_, ?_, ?_⟩
  · intro fromDer rsa sigDer sd e h
    simp only [verify_pdf_signature, h]
  · intro fromDer rsa sigDer sd params h hne
    simp only [verify_pdf_signature, h]
    rw [if_pos hne]
  · intro fromDer rsa sigDer sd params h heq hrsa
    simp only [verify_pdf_signature, h]
    rw [if_neg (by simp [heq]), hrsa]
    simp
  · intro data oid h
    unfold compute_sha256_digest
    rw [if_pos h]
  · intro serials target h
    induction serials with
    | nil => rfl
    | cons s rest ih =>
        have hs : ¬ (s = target) := by
          intro heq
          exact h (by simp [heq])
        have hrest : target ∉ rest := fun hmem => h (by simp [hmem])
        simp only [List.map_cons, get_tbs_for_serial, List.head?, List.get?]
        rw [if_neg hs]
        exact ih hrest

/-- C5 (witness): the amended claim's serial-mismatch part at a one-element
certificate bag with serial 5 and signer serial 7. -/
theorem c5_failure_modes_witness :
    (7 : Nat) ∉ [(5 : Nat)] ∧
    get_tbs_for_serial
        [ASN1Block.sequence [.sequence [.nullBlock, .integer 5]]] 7 =
      .error "No matching certificate found" :=
  ⟨by decide, by
    have h := c5_failure_modes.2.2.2.2.2 [5] 7 (by decide)
    exact h⟩

end LyncZ
